import Mathlib

/-!
Verification development for the opt-paradox evaluation/scoring engine.

The Python sources are embedded shallowly: strings are `List Char` / `String`,
machine floats that only ever carry exact small rationals are `ℚ`, and the
spaCy NLP pipeline (an external ML model) is abstracted as an oracle mapping a
text to its recognized entities.  The fuzzy string similarity functions
(fuzzywuzzy / thefuzz) are embedded down to difflib's SequenceMatcher, which is
their documented pure-Python backend.
-/

namespace OptParadox

/-! ### Python character / string primitives -/

/-- ASCII lower-casing of one character (Python `str.lower` restricted to the
ASCII range actually exercised by the repository's string constants). -/
def pyLowerChar (c : Char) : Char :=
  if 'A' ≤ c ∧ c ≤ 'Z' then Char.ofNat (c.toNat + 32) else c

/-- Python `str.lower` on the character list of a string. -/
def pyLowerL (s : List Char) : List Char := s.map pyLowerChar

def pyLower (s : String) : String := String.mk (pyLowerL s.data)

/-- Python whitespace class `\s` (ASCII part: space, tab, newline, carriage
return, vertical tab, form feed). -/
def isPyWS (c : Char) : Bool :=
  c = ' ' ∨ c = '\t' ∨ c = '\n' ∨ c = '\r' ∨ c = Char.ofNat 11 ∨ c = Char.ofNat 12

/-- Membership in Python's `string.punctuation` (ASCII 33–47, 58–64, 91–96,
123–126). -/
def isPunctChar (c : Char) : Bool :=
  let n := c.toNat
  (33 ≤ n ∧ n ≤ 47) ∨ (58 ≤ n ∧ n ≤ 64) ∨ (91 ≤ n ∧ n ≤ 96) ∨ (123 ≤ n ∧ n ≤ 126)

/-- Source `src/utils/nlp.py` `remove_punctuation`: delete every
`string.punctuation` character. -/
def removePunctL (s : List Char) : List Char := s.filter (fun c => ¬ isPunctChar c)

def remove_punctuation (s : String) : String := String.mk (removePunctL s.data)

/-- Python `str.strip()` (whitespace strip from both ends). -/
def pyStrip (l : List Char) : List Char :=
  ((l.dropWhile isPyWS).reverse.dropWhile isPyWS).reverse

/-- Test that `pat` occurs at the start of `s`. -/
def startsAt (pat : List Char) : List Char → Bool
  | s =>
    match pat, s with
    | [], _ => true
    | _ :: _, [] => false
    | p :: ps, c :: cs => p = c && startsAt ps cs

/-- Python's substring operator `pat in s` on character lists. -/
def isSubL (pat : List Char) : List Char → Bool
  | [] => pat.isEmpty
  | c :: rest => startsAt pat (c :: rest) || isSubL pat rest

/-! ### difflib.SequenceMatcher (no junk, autojunk irrelevant at these sizes) -/

structure Block where
  a : Nat
  b : Nat
  size : Nat
deriving DecidableEq, Repr

/-- Length of the longest common suffix of `a[alo..i]` and `b[blo..j]`
(inclusive right ends), the quantity difflib's `j2len` rows accumulate.
Structural recursion on a fuel argument so the kernel can evaluate it. -/
def sufLenF (a b : List Char) (alo blo : Nat) : Nat → Nat → Nat → Nat
  | 0, _, _ => 0
  | fuel + 1, i, j =>
    if alo ≤ i ∧ blo ≤ j ∧ i < a.length ∧ j < b.length ∧
        a.getD i (Char.ofNat 0) = b.getD j (Char.ofNat 0) then
      if i = 0 ∨ j = 0 then 1
      else 1 + sufLenF a b alo blo fuel (i - 1) (j - 1)
    else 0

def sufLen (a b : List Char) (alo blo i j : Nat) : Nat :=
  sufLenF a b alo blo (i + 1) i j

/-- All candidate blocks `(i-k+1, j-k+1, k)` in the scan order of difflib's
double loop over `a[alo:ahi]` × `b[blo:bhi]`. -/
def candBlocks (a b : List Char) (alo ahi blo bhi : Nat) : List Block :=
  ((List.range (ahi - alo)).map (· + alo)).flatMap (fun i =>
    ((List.range (bhi - blo)).map (· + blo)).map (fun j =>
      let k := sufLen a b alo blo i j
      ⟨i + 1 - k, j + 1 - k, k⟩))

/-- difflib `find_longest_match` on `a[alo:ahi]` / `b[blo:bhi]` with no junk:
scanning forward with a strict `>` update means the first candidate attaining
the maximal positive size wins, else `(alo, blo, 0)`. -/
def findLongestMatch (a b : List Char) (alo ahi blo bhi : Nat) : Block :=
  (candBlocks a b alo ahi blo bhi).foldr
    (fun c best => if 0 < c.size ∧ best.size ≤ c.size then c else best)
    ⟨alo, blo, 0⟩

/-- Recursive block collection of difflib `get_matching_blocks` (the queue
exploration visits exactly these regions; in-order traversal yields the sorted
order difflib obtains by sorting). -/
def matchingBlocksAux (a b : List Char) : Nat → Nat → Nat → Nat → Nat → List Block
  | 0, _, _, _, _ => []
  | fuel + 1, alo, ahi, blo, bhi =>
    let m := findLongestMatch a b alo ahi blo bhi
    if m.size = 0 then []
    else
      matchingBlocksAux a b fuel alo m.a blo m.b ++ [m] ++
        matchingBlocksAux a b fuel (m.a + m.size) ahi (m.b + m.size) bhi

/-- difflib's merge of adjacent blocks in the sorted list (accumulator form of
the `i1 + k1 == i2 and j1 + k1 == j2` loop in `get_matching_blocks`). -/
def mergeAux (cur : Block) : List Block → List Block
  | [] => [cur]
  | b :: rest =>
    if cur.a + cur.size = b.a ∧ cur.b + cur.size = b.b then
      mergeAux ⟨cur.a, cur.b, cur.size + b.size⟩ rest
    else
      cur :: mergeAux b rest

def mergeAdjacent : List Block → List Block
  | [] => []
  | b :: rest => mergeAux b rest

/-- difflib `get_matching_blocks`: non-adjacent merged blocks plus the
`(len(a), len(b), 0)` terminator. -/
def getMatchingBlocks (a b : List Char) : List Block :=
  mergeAdjacent (matchingBlocksAux a b (a.length + b.length + 1) 0 a.length 0 b.length) ++
    [⟨a.length, b.length, 0⟩]

/-- Total number of matched characters. -/
def totalMatched (a b : List Char) : Nat :=
  ((getMatchingBlocks a b).map (·.size)).sum

/-- difflib `SequenceMatcher.ratio()` as an exact fraction `(2*M, T)`
(numerator, positive denominator), and `1/1` when both sequences are empty
(`_calculate_ratio`).  Kept as a Nat pair so the kernel can evaluate it. -/
def seqSimFrac (a b : List Char) : Nat × Nat :=
  if a.length + b.length = 0 then (1, 1)
  else (2 * totalMatched a b, a.length + b.length)

/-- Strict comparison of two nonnegative fractions with positive denominators. -/
def fracLt (p q : Nat × Nat) : Bool := p.1 * q.2 < q.1 * p.2

/-- Python 3 `int(round(100 * (num/den)))` with banker's rounding (half to
even) on the exact fraction.  The reference computes in binary floating point;
none of the concrete scores decided in this file fall at a representability
boundary. -/
def pyRound100 (num den : Nat) : Nat :=
  let scaled := 100 * num
  let f := scaled / den
  let r := scaled % den
  if 2 * r < den then f
  else if 2 * r > den then f + 1
  else if f % 2 = 0 then f else f + 1

/-! ### fuzzywuzzy / thefuzz scorers -/

/-- fuzzywuzzy `fuzz.ratio`: rounded percentage of the SequenceMatcher ratio;
0 when either string is empty (`utils.check_empty_string`). -/
def fuzzRatioScore (s1 s2 : List Char) : Nat :=
  if s1.length = 0 ∨ s2.length = 0 then 0
  else
    let f := seqSimFrac s1 s2
    pyRound100 f.1 f.2

/-- fuzzywuzzy `fuzz.partial_ratio` (difflib backend): slide the shorter string
over the windows of the longer string suggested by the matching blocks, return
100 on a window ratio above .995, else the rounded best window score.
Empty input short-circuits to 0 (`utils.check_empty_string`). -/
def fuzzPartial (s1 s2 : List Char) : Nat :=
  if s1.length = 0 ∨ s2.length = 0 then 0
  else
    let p := if s1.length ≤ s2.length then (s1, s2) else (s2, s1)
    let shorter := p.1
    let longer := p.2
    let blocks := getMatchingBlocks shorter longer
    let scores := blocks.map (fun bl =>
      let longStart := bl.b - bl.a
      let w := (longer.drop longStart).take shorter.length
      seqSimFrac shorter w)
    if scores.any (fun r => 1000 * r.1 > 995 * r.2) then 100
    else
      let best := scores.foldl (fun acc r => if fracLt acc r then r else acc) (0, 1)
      pyRound100 best.1 best.2

/-- Source `fuzz.partial_ratio` on Lean strings. -/
def fuzzPartialS (s1 s2 : String) : Nat := fuzzPartial s1.data s2.data

/-! ### spaCy pipeline abstraction (src/utils/nlp.py)

The `en_core_sci_lg` entity recognizer with the negspacy negation component is
an external ML model; it is abstracted as an oracle mapping a text to its
recognized entities in document order, each carrying its negation flag. -/

structure Ent where
  text : String
  negex : Bool

def NlpOracle : Type := String → List Ent

/-- Source `keyword_positive`: the first entity whose text contains the keyword
(case-insensitive substring) decides via its negation flag; with no such
entity, fall back to a plain case-insensitive substring test. -/
def keyword_positive (nlp : NlpOracle) (sentence keyword : String) : Bool :=
  match (nlp sentence).find?
      (fun e => isSubL (pyLowerL keyword.data) (pyLowerL e.text.data)) with
  | some e => ! e.negex
  | none => isSubL (pyLowerL keyword.data) (pyLowerL sentence.data)

/-- The entity scan loop of `is_negated`, returning on the first entity whose
lowercased text fuzzy-matches the lowercased keyword strictly above 90. -/
def isNegScan (kwLower : List Char) : List Ent → Bool
  | [] => false
  | e :: rest =>
    if fuzzPartial kwLower (pyLowerL e.text.data) > 90 then e.negex
    else isNegScan kwLower rest

/-- Source `is_negated(text, keyword)`.  The `try/except` of the source collapses in
this total model: the `except Exception` branch returns `False` exactly like
the no-match fall-through. -/
def is_negated (nlp : NlpOracle) (text keyword : String) : Bool :=
  isNegScan (pyLowerL keyword.data) (nlp text)

/-! ### Diagnosis matching (src/evals/diagnosis.py) -/

def PATHOLOGIES : List String :=
  ["appendicitis", "pancreatitis", "cholecystitis", "diverticulitis"]

structure AltName where
  location : String
  modifiers : List String

/-- Source `ALTERNATIVE_PATHOLOGY_NAMES`.  The Python dict lookup raises `KeyError`
outside its four keys; every claim stays inside them, so unknown keys default
to the empty table here. -/
def ALTERNATIVE_PATHOLOGY_NAMES (p : String) : List AltName :=
  if p = "appendicitis" then
    [⟨"appendi", ["gangren", "infect", "inflam", "abscess", "rupture", "necros", "perf"]⟩]
  else if p = "cholecystitis" then
    [⟨"gallbladder", ["gangren", "infect", "inflam", "abscess", "necros", "perf"]⟩,
     ⟨"cholangitis", ["cholangitis"]⟩]
  else if p = "diverticulitis" then
    [⟨"diverticul", ["inflam", "infect", "abscess", "perf", "rupture"]⟩]
  else if p = "pancreatitis" then
    [⟨"pancrea", ["gangren", "infect", "inflam", "abscess", "necros"]⟩]
  else []

/-- Source `GRACIOUS_ALTERNATIVE_PATHOLOGY_NAMES`, same conventions. -/
def GRACIOUS_ALTERNATIVE_PATHOLOGY_NAMES (p : String) : List AltName :=
  if p = "appendicitis" then []
  else if p = "cholecystitis" then
    [⟨"acute gallbladder", ["disease", "attack"]⟩,
     ⟨"acute biliary", ["colic"]⟩]
  else if p = "diverticulitis" then
    [⟨"acute colonic", ["perfor"]⟩,
     ⟨"sigmoid", ["perfor"]⟩,
     ⟨"sigmoid", ["colitis"]⟩]
  else if p = "pancreatitis" then []
  else []

/-- One table pass of `check_diagnosis_match`: some `(location, modifiers)`
entry has its location and one modifier as substrings of the cleaned text,
both judged keyword-positive on the unclean (lowercased) text.  The Python
double loop breaks on first success, which is exactly `List.any`. -/
def altTableHit (nlp : NlpOracle) (diagnosis : String) (dClean : List Char)
    (table : List AltName) : Bool :=
  table.any (fun alt =>
    alt.modifiers.any (fun m =>
      isSubL alt.location.data dClean && isSubL m.data dClean &&
      keyword_positive nlp diagnosis alt.location && keyword_positive nlp diagnosis m))

/-- Source `check_diagnosis_match(correct_diagnosis, diagnosis)`. -/
def check_diagnosis_match (nlp : NlpOracle) (correct_diagnosis diagnosis : String) : Bool :=
  if diagnosis = "" then false
  else
    let c := pyLower correct_diagnosis
    let d := pyLower diagnosis
    let alternative_names := ALTERNATIVE_PATHOLOGY_NAMES c
    let gracious_alternative_names := GRACIOUS_ALTERNATIVE_PATHOLOGY_NAMES c
    let diagnosis_clean := removePunctL d.data
    let similarity_score := fuzzPartial c.data diagnosis_clean
    let is_present : Bool := decide (similarity_score > 90)
    let is_negated_diagnosis := is_negated nlp d c
    let is_correct := is_present && ! is_negated_diagnosis
    let is_correct := is_correct || altTableHit nlp d diagnosis_clean alternative_names
    let is_correct := is_correct || altTableHit nlp d diagnosis_clean gracious_alternative_names
    is_correct

/-- Source `match_pathology(diagnosis)`: first pathology of the fixed enumeration
whose partial ratio against the lowercased input exceeds 80, else `none`. -/
def match_pathology (diagnosis : String) : Option String :=
  PATHOLOGIES.find? (fun pathology =>
    fuzzPartial (pyLower diagnosis).data pathology.data > 80)

/-! ### Regex scaffolding

The handful of concrete Python regexes of `diagnosis.py` are compiled by hand
into positional matchers.  Greedy `\s*` / `\**` / `\d+` pieces that are
followed by a character outside their own class admit exactly one viable
length, so they appear as maximal runs; the places where backtracking is
observable (`\s*\n`, `\s*` before a lazy group whose lookahead may fail) are
modelled by explicit descending candidate scans. -/

/-- Character of `s` at `p`, NUL beyond the end (NUL belongs to none of the
character classes used below, so out-of-range positions fail every test). -/
def getC (s : List Char) (p : Nat) : Char := s.getD p (Char.ofNat 0)

/-- Length of the maximal run of `pred`-characters starting at `p`. -/
def runLen (pred : Char → Bool) (s : List Char) (p : Nat) : Nat :=
  ((s.drop p).takeWhile pred).length

def isDigitCh (c : Char) : Bool := '0' ≤ c ∧ c ≤ '9'

def isAsciiLetter (c : Char) : Bool := ('A' ≤ c ∧ c ≤ 'Z') ∨ ('a' ≤ c ∧ c ≤ 'z')

/-- Python regex `\w` (ASCII part): the word characters deciding `\b`. -/
def isWordChar (c : Char) : Bool := isAsciiLetter c || isDigitCh c || c = '_'

def slice (s : List Char) (a b : Nat) : List Char := (s.drop a).take (b - a)

/-- Case-insensitive literal match at position `p` (`lit` given lowercase). -/
def matchCI (lit : List Char) (s : List Char) (p : Nat) : Bool :=
  ((s.drop p).take lit.length).map pyLowerChar == lit

/-- Case-sensitive literal match at position `p`. -/
def matchEx (lit : List Char) (s : List Char) (p : Nat) : Bool :=
  (s.drop p).take lit.length == lit

/-- Anchor `^` under `re.MULTILINE`. -/
def lineStart (s : List Char) (p : Nat) : Bool :=
  if p = 0 then true else getC s (p - 1) = '\n'

/-- First position in `[lo, hi)` satisfying `pred`. -/
def scanFirst (pred : Nat → Bool) (lo hi : Nat) : Option Nat :=
  ((List.range (hi - lo)).map (· + lo)).find? pred

/-- The lookahead `(?=\n\s*\n|Treatment:)` (IGNORECASE) shared by the two
block regexes of `parse_ranked_diagnoses`: a newline whose following
whitespace run contains another newline, or the literal `treatment:`. -/
def lookTerm (s : List Char) (e : Nat) : Bool :=
  (getC s e = '\n' && ((s.drop (e + 1)).takeWhile isPyWS).contains '\n') ||
    matchCI ("treatment:").data s e

/-- Attempt of the header regex
`\**Final Diagnosis\s*\(ranked\)\s*:\**\s*\n(.*?)(?=\n\s*\n|Treatment:)` at
start position `p`: on success the lazy capture group. -/
def rankedHeaderCapture (s : List Char) (p : Nat) : Option (List Char) :=
  let p1 := p + runLen (· = '*') s p
  if matchCI ("final diagnosis").data s p1 then
    let p2 := p1 + 15
    let p3 := p2 + runLen isPyWS s p2
    if getC s p3 = '(' && matchCI ("ranked").data s (p3 + 1) && getC s (p3 + 7) = ')' then
      let p4 := p3 + 8
      let p5 := p4 + runLen isPyWS s p4
      if getC s p5 = ':' then
        let p6 := p5 + 1 + runLen (· = '*') s (p5 + 1)
        ((List.range (runLen isPyWS s p6)).reverse).findSome? (fun j =>
          if getC s (p6 + j) = '\n' then
            (scanFirst (lookTerm s) (p6 + j + 1) s.length).map (fun e =>
              slice s (p6 + j + 1) e)
          else none)
      else none
    else none
  else none

/-- Search (`re.search`) of the ranked-block regex: earliest matching start wins. -/
def rankedSearch (s : List Char) : Option (List Char) :=
  (List.range (s.length + 1)).findSome? (rankedHeaderCapture s)

/-- The lookahead `(?=^\s*\d+[\.:\)]|$)` under MULTILINE. -/
def lookNum (s : List Char) (e : Nat) : Bool :=
  (e = s.length) || (getC s e = '\n') ||
    (lineStart s e &&
      (let w := runLen isPyWS s e
       let q := e + w
       let d := runLen isDigitCh s q
       1 ≤ d && (getC s (q + d) = '.' || getC s (q + d) = ':' || getC s (q + d) = ')')))

/-- One attempt of the item regex `^\s*(\d+)[\.:\)]\s*(.*?)(?=^\s*\d+[\.:\)]|$)`
(MULTILINE, DOTALL) at `p`: on success, match end and the captured item. -/
def numMatchAt (s : List Char) (p : Nat) : Option (Nat × List Char) :=
  if lineStart s p then
    let w := runLen isPyWS s p
    let q := p + w
    let d := runLen isDigitCh s q
    if 1 ≤ d && (getC s (q + d) = '.' || getC s (q + d) = ':' || getC s (q + d) = ')') then
      let c := q + d + 1 + runLen isPyWS s (q + d + 1)
      let e := match scanFirst (lookNum s) c s.length with
        | some e => e
        | none => s.length
      some (e, slice s c e)
    else none
  else none

/-- Scan (`re.findall`) of the item regex: non-overlapping, resuming at each
match end. -/
def findAllNumF (s : List Char) : Nat → Nat → List (List Char)
  | 0, _ => []
  | fuel + 1, p =>
    if s.length ≤ p then []
    else
      match numMatchAt s p with
      | some (e, cap) => cap :: findAllNumF s fuel e
      | none => findAllNumF s fuel (p + 1)

def findAllNum (s : List Char) : List (List Char) := findAllNumF s (s.length + 1) 0

/-- Earliest split point of the per-item regex
`^(.*?)(?:\s+-+\s+|\s*:\s+).*$` (items are single-line, so the `.*$` tail
always matches). -/
def sepDash (l : List Char) (e : Nat) : Bool :=
  let w := runLen isPyWS l e
  let dr := runLen (· = '-') l (e + w)
  1 ≤ w && 1 ≤ dr && isPyWS (getC l (e + w + dr))

def sepColon (l : List Char) (e : Nat) : Bool :=
  let w := runLen isPyWS l e
  getC l (e + w) = ':' && isPyWS (getC l (e + w + 1))

def sepSplitPoint (l : List Char) : Option Nat :=
  scanFirst (fun e => sepDash l e || sepColon l e) 0 l.length

/-- Cleaning of one numbered item: strip, drop a `- explanation` / `:
explanation` suffix, lowercase, strip punctuation. -/
def itemCleanRanked (cap : List Char) : List Char :=
  let diag := pyStrip cap
  let diag := match sepSplitPoint diag with
    | some e => pyStrip (diag.take e)
    | none => diag
  removePunctL (pyLowerL diag)

/-- The shared collection loop: keep a cleaned item when non-empty and new,
stop as soon as five are collected. -/
def collect5 (acc : List (List Char)) : List (List Char) → List (List Char)
  | [] => acc
  | x :: xs =>
    let acc2 := if x ≠ [] ∧ x ∉ acc then acc ++ [x] else acc
    if acc2.length = 5 then acc2 else collect5 acc2 xs

/-- Search (`re.search`) of the fallback regex
`Final Diagnosis\s*:\s*(.*?)(?=\n\s*\n|Treatment:)` (IGNORECASE, DOTALL):
earliest start, then greedy `\s*` against the lazy capture. -/
def plainSearch (s : List Char) : Option (List Char) :=
  (List.range (s.length + 1)).findSome? (fun p =>
    if matchCI ("final diagnosis").data s p then
      let p2 := p + 15
      let p3 := p2 + runLen isPyWS s p2
      if getC s p3 = ':' then
        let base := p3 + 1
        ((List.range (runLen isPyWS s base + 1)).reverse).findSome? (fun k =>
          (scanFirst (lookTerm s) (base + k) s.length).map (fun e =>
            slice s (base + k) e))
      else none
    else none)

/-- Python `str.splitlines` restricted to the line boundaries `\n`, `\r\n`,
`\r`, `\x0b`, `\x0c` (the texts in play contain only `\n`). -/
def splitLinesAux : List Char → List Char → List (List Char)
  | cur, [] => [cur]
  | cur, '\r' :: '\n' :: rest =>
    cur :: (if rest.isEmpty then [] else splitLinesAux [] rest)
  | cur, c :: rest =>
    if c = '\n' ∨ c = '\r' ∨ c = Char.ofNat 11 ∨ c = Char.ofNat 12 then
      cur :: (if rest.isEmpty then [] else splitLinesAux [] rest)
    else
      splitLinesAux (cur ++ [c]) rest

def splitLinesL (s : List Char) : List (List Char) :=
  if s.isEmpty then [] else splitLinesAux [] s

/-- Python `str.strip(" -*\t")`. -/
def isStripC (c : Char) : Bool := c = ' ' || c = '-' || c = '*' || c = '\t'

def stripDash (l : List Char) : List Char :=
  ((l.dropWhile isStripC).reverse.dropWhile isStripC).reverse

/-- Source `re.match(r"(treatment|thought)\b", ln, re.I)`. -/
def startsTreatThought (ln : List Char) : Bool :=
  (matchCI ("treatment").data ln 0 && ! isWordChar (getC ln 9)) ||
    (matchCI ("thought").data ln 0 && ! isWordChar (getC ln 7))

/-- Source `re.sub(r"^\d+\.\s*", "", ln)`. -/
def stripLeadingNum (ln : List Char) : List Char :=
  let d := runLen isDigitCh ln 0
  if 1 ≤ d && getC ln d = '.' then ln.drop (d + 1 + runLen isPyWS ln (d + 1))
  else ln

/-- Source `re.split(r"[-:]", ln, 1)[0]`. -/
def truncDashColon (ln : List Char) : List Char :=
  ln.takeWhile (fun c => c ≠ '-' && c ≠ ':')

/-- Cleaning of one fallback line. -/
def plainLineClean (ln : List Char) : List Char :=
  removePunctL (pyLowerL (pyStrip (truncDashColon (stripLeadingNum ln))))

/-- The fallback collection loop, additionally terminated by a line opening
with `treatment`/`thought`. -/
def plainCollect (acc : List (List Char)) : List (List Char) → List (List Char)
  | [] => acc
  | ln :: rest =>
    if startsTreatThought ln then acc
    else
      let cleaned := plainLineClean ln
      let acc2 := if cleaned ≠ [] ∧ cleaned ∉ acc then acc ++ [cleaned] else acc
      if acc2.length = 5 then acc2 else plainCollect acc2 rest

/-- The cleaned candidate stream of the ranked strategy, before collection. -/
def rankedItems (s : List Char) : List (List Char) :=
  match rankedSearch s with
  | some content => (findAllNum content).map itemCleanRanked
  | none => []

/-- The stripped, filtered fallback lines. -/
def plainRawLines (content : List Char) : List (List Char) :=
  ((splitLinesL content).filter (fun ln => ! (pyStrip ln).isEmpty)).map stripDash

/-- The cleaned candidate stream of the fallback strategy (truncated at the
first `treatment`/`thought` line), before collection. -/
def plainItems (s : List Char) : List (List Char) :=
  match plainSearch s with
  | some content =>
    ((plainRawLines content).takeWhile (fun ln => ! startsTreatThought ln)).map plainLineClean
  | none => []

/-- Body of `parse_ranked_diagnoses` on character lists. -/
def parseRankedCore (s : List Char) : List (List Char) :=
  let ranked : Option (List (List Char)) :=
    match rankedSearch s with
    | some content =>
      let nums := findAllNum content
      if nums.isEmpty then none
      else
        let ds := collect5 [] (nums.map itemCleanRanked)
        if ds.isEmpty then none else some ds
    | none => none
  match ranked with
  | some ds => ds
  | none =>
    match plainSearch s with
    | none => []
    | some content => plainCollect [] (plainRawLines content)

/-- Source `parse_ranked_diagnoses(text)`. -/
def parse_ranked_diagnoses (t : String) : List String :=
  (parseRankedCore t.data).map String.mk

/-! ### parse_diagnosis (src/evals/diagnosis.py) -/

/-- The character class `[A-Za-z\s\-]` of the main capture. -/
def isFDClass (c : Char) : Bool := isAsciiLetter c || isPyWS c || c = '-'

/-- One attempt of `Final Diagnosis:\s*\**([A-Za-z\s\-]+)\**` (IGNORECASE) at
`p`: on success, match end and the capture.  `\s*` backtracks from its
maximal run until stars-then-class can consume at least one character. -/
def fdMatchAt (s : List Char) (p : Nat) : Option (Nat × List Char) :=
  if matchCI ("final diagnosis:").data s p then
    let p0 := p + 16
    ((List.range (runLen isPyWS s p0 + 1)).reverse).findSome? (fun k =>
      let q0 := p0 + k + runLen (· = '*') s (p0 + k)
      let r := runLen isFDClass s q0
      if 1 ≤ r then some (q0 + r + runLen (· = '*') s (q0 + r), slice s q0 (q0 + r))
      else none)
  else none

/-- Scan (`re.findall`) of the `parse_diagnosis` regex. -/
def findAllFDF (s : List Char) : Nat → Nat → List (List Char)
  | 0, _ => []
  | fuel + 1, p =>
    if s.length ≤ p then []
    else
      match fdMatchAt s p with
      | some (e, cap) => cap :: findAllFDF s fuel e
      | none => findAllFDF s fuel (p + 1)

def findAllFD (s : List Char) : List (List Char) := findAllFDF s (s.length + 1) 0

/-- Source `re.sub(r"^Based on.*:\n\n", "", d)` (anchored, case-sensitive, greedy
`.*` inside the first line). -/
def subBasedOn (l : List Char) : List Char :=
  if matchEx ("Based on").data l 0 then
    let firstNl := (l.takeWhile (· ≠ '\n')).length
    match ((List.range firstNl).reverse).find? (fun i =>
        8 ≤ i && getC l i = ':' && getC l (i + 1) = '\n' && getC l (i + 2) = '\n') with
    | some i => l.drop (i + 3)
    | none => l
  else l

/-- The `[s]?:` tail of every section pattern (IGNORECASE). -/
def tailSColon (l : List Char) (x : Nat) : Bool :=
  getC l x = ':' || (pyLowerChar (getC l x) = 's' && getC l (x + 1) = ':')

/-- Does `pred` hold somewhere in `[lo, hi)`? -/
def existsFrom (pred : Nat → Bool) (lo hi : Nat) : Bool :=
  (List.range (hi - lo)).any (fun d => pred (lo + d))

/-- Source `re.sub(rf"{word}[s]?:.*", "", l, IGNORECASE | DOTALL)` for a literal
section word: truncate at the earliest match. -/
def cutPlainWord (word : List Char) (l : List Char) : List Char :=
  match scanFirst (fun q => matchCI word l q && tailSColon l (q + word.length)) 0 l.length with
  | some q => l.take q
  | none => l

/-- Section pattern `other.*diagnos.*include[s]?:.*` (DOTALL). -/
def cutOtherInclude (l : List Char) : List Char :=
  match scanFirst (fun q => matchCI ("other").data l q &&
      existsFrom (fun i => matchCI ("diagnos").data l i &&
        existsFrom (fun j => matchCI ("include").data l j && tailSColon l (j + 7))
          (i + 7) l.length)
        (q + 5) l.length) 0 l.length with
  | some q => l.take q
  | none => l

/-- Section pattern `other.*diagnos.*considered(?: were)?[s]?:.*` (DOTALL). -/
def cutOtherConsidered (l : List Char) : List Char :=
  match scanFirst (fun q => matchCI ("other").data l q &&
      existsFrom (fun i => matchCI ("diagnos").data l i &&
        existsFrom (fun j => matchCI ("considered").data l j &&
            (tailSColon l (j + 10) ||
              (matchCI (" were").data l (j + 10) && tailSColon l (j + 15))))
          (i + 7) l.length)
        (q + 5) l.length) 0 l.length with
  | some q => l.take q
  | none => l

/-- The fixed, ordered section-stripping pass of `parse_diagnosis`. -/
def applySections (l : List Char) : List Char :=
  let l := cutPlainWord ("rationale").data l
  let l := cutPlainWord ("note").data l
  let l := cutPlainWord ("recommendation").data l
  let l := cutPlainWord ("explanation").data l
  let l := cutPlainWord ("finding").data l
  let l := cutOtherInclude l
  let l := cutOtherConsidered l
  let l := cutPlainWord ("management").data l
  let l := cutPlainWord ("action").data l
  let l := cutPlainWord ("plan").data l
  let l := cutPlainWord ("reasoning").data l
  let l := cutPlainWord ("assessment").data l
  let l := cutPlainWord ("justification").data l
  let l := cutPlainWord ("tests").data l
  let l := cutPlainWord ("additional diagnoses").data l
  let l := cutPlainWord ("notification").data l
  let l := cutPlainWord ("impression").data l
  let l := cutPlainWord ("background").data l
  let l := cutPlainWord ("additional findings include").data l
  l

/-- Numbered single-item collapse: `re.search(r"^1\.(.*)", d, MULTILINE)`,
then `re.sub(r"[-:].*", "", d)` on the stripped capture. -/
def stageNumbered (l : List Char) : List Char :=
  match scanFirst (fun q => lineStart l q && getC l q = '1' && getC l (q + 1) = '.')
      0 l.length with
  | some q =>
    let rest := (l.drop (q + 2)).takeWhile (· ≠ '\n')
    (pyStrip rest).takeWhile (fun c => c ≠ '-' && c ≠ ':')
  | none => l

/-- Starred single-item collapse: `re.search(r"^\*(.*)", d, MULTILINE)`, then
`re.sub(r"[-:] .*", "", d)` on the stripped capture. -/
def stageStar (l : List Char) : List Char :=
  match scanFirst (fun q => lineStart l q && getC l q = '*') 0 l.length with
  | some q =>
    let d := pyStrip ((l.drop (q + 1)).takeWhile (· ≠ '\n'))
    match scanFirst (fun e => (getC d e = '-' || getC d e = ':') && getC d (e + 1) = ' ')
        0 d.length with
    | some e => d.take e
    | none => d
  | none => l

/-- Source `re.sub(r"\n\n.*", "", d)` without DOTALL: every `\n\n` plus the rest of
that line is removed, scanning left to right. -/
def subDoubleNlF : Nat → List Char → List Char
  | 0, l => l
  | fuel + 1, l =>
    match l with
    | '\n' :: '\n' :: rest => subDoubleNlF fuel (rest.dropWhile (· ≠ '\n'))
    | c :: rest => c :: subDoubleNlF fuel rest
    | [] => []

def subDoubleNl (l : List Char) : List Char := subDoubleNlF l.length l

/-- Index of the first `.`/`\n` at or after `start` (or the length). -/
def firstStop (l : List Char) (start : Nat) : Nat :=
  start + runLen (fun c => c ≠ '.' && c ≠ '\n') l start

/-- Source `re.search(r".*?diagnosis[^.\n]*?\bis\b(.*?)[.\n]", d, DOTALL)`
(case-sensitive): earliest `diagnosis` occurrence from which a whole-word
`is` is reachable without crossing `.`/`\n` and a terminator follows. -/
def diagSearch (l : List Char) : Option (List Char) :=
  (List.range l.length).findSome? (fun d =>
    if matchEx ("diagnosis").data l d then
      let limit := firstStop l (d + 9)
      match ((List.range (limit - (d + 9) + 1)).map (· + d + 9)).find? (fun m =>
          ! isWordChar (getC l (m - 1)) && getC l m = 'i' && getC l (m + 1) = 's' &&
            ! isWordChar (getC l (m + 2))) with
      | some m =>
        let e := firstStop l (m + 2)
        if e < l.length then some (slice l (m + 2) e) else none
      | none => none
    else none)

/-- Source `re.sub(r".*?patient has", "", d, count=1, DOTALL)`. -/
def dropPatientHas (l : List Char) : List Char :=
  match scanFirst (fun q => matchEx ("patient has").data l q) 0 l.length with
  | some q => l.drop (q + 11)
  | none => l

/-- One delimiter attempt of
`re.split(r"[,.\n]|(?:\s*\b(?:and|or|vs[.]?)\b\s*)", d)` at `p`:
the match end on success. -/
def splitDelimAt (l : List Char) (p : Nat) : Option Nat :=
  let c := getC l p
  if c = ',' || c = '.' || c = '\n' then some (p + 1)
  else
    let w := runLen isPyWS l p
    let q := p + w
    let bOK := if q = 0 then true else ! isWordChar (getC l (q - 1))
    if bOK then
      if matchEx ("and").data l q && ! isWordChar (getC l (q + 3)) then
        some (q + 3 + runLen isPyWS l (q + 3))
      else if matchEx ("or").data l q && ! isWordChar (getC l (q + 2)) then
        some (q + 2 + runLen isPyWS l (q + 2))
      else if matchEx ("vs").data l q then
        if getC l (q + 2) = '.' && isWordChar (getC l (q + 3)) then
          some (q + 3 + runLen isPyWS l (q + 3))
        else if ! isWordChar (getC l (q + 2)) then
          some (q + 2 + runLen isPyWS l (q + 2))
        else none
      else none
    else none

/-- Piece collection of `re.split`: non-overlapping delimiter matches scanning
left to right. -/
def resplitAux (l : List Char) : Nat → Nat → Nat → List (List Char)
  | 0, cur, _ => [slice l cur l.length]
  | fuel + 1, cur, p =>
    if l.length ≤ p then [slice l cur l.length]
    else
      match splitDelimAt l p with
      | some e => slice l cur p :: resplitAux l fuel e e
      | none => resplitAux l fuel cur (p + 1)

def resplit (l : List Char) : List (List Char) := resplitAux l (l.length + 1) 0 0

/-- The fixed cleanup-heuristic sequence `parse_diagnosis` applies to the
selected capture, in source order. -/
def cleanupCandidate (m : List Char) : List Char :=
  let d := pyStrip m
  let d := subBasedOn d
  let d := applySections d
  let d := stageNumbered d
  let d := stageStar d
  let d := subDoubleNl d
  let d := match diagSearch d with
    | some c => pyStrip c
    | none => d
  let d := dropPatientHas d
  let pieces := (resplit d).filter (fun x => ! x.isEmpty)
  let d := match pieces with
    | [] => []
    | x :: _ => x
  pyStrip d

/-- Source `parse_diagnosis(prediction)`. -/
def parse_diagnosis (prediction : String) : String :=
  match (findAllFD prediction.data).getLast? with
  | none => ""
  | some m => String.mk (cleanupCandidate m)

/-- An occurrence of the (case-insensitive) `Final Diagnosis:` marker. -/
def markerOccursCI (s : List Char) : Bool :=
  (List.range (s.length + 1)).any (fun p => matchCI ("final diagnosis:").data s p)

/-! ### thefuzz token_set_ratio (src/evals/information_evaluator.py)

`thefuzz` delegates to the same difflib-derived algorithms; the token-set
scorer below follows the reference `_token_set` with `full_process=True`. -/

/-- Source `utils.full_process`: replace `\W` (non-word) characters by spaces,
lowercase, strip. -/
def fullProcess (l : List Char) : List Char :=
  pyStrip (pyLowerL (l.map (fun c => if isWordChar c then c else ' ')))

/-- Python `str.split()` with no separator: whitespace runs, empties dropped. -/
def pySplitAux (cur : List Char) : List Char → List (List Char)
  | [] => if cur.isEmpty then [] else [cur]
  | c :: rest =>
    if isPyWS c then
      if cur.isEmpty then pySplitAux [] rest else cur :: pySplitAux [] rest
    else pySplitAux (cur ++ [c]) rest

def pySplitWS (l : List Char) : List (List Char) := pySplitAux [] l

/-- First-occurrence deduplication with an explicit seen-set accumulator
(the contents of a Python `set`, in first-appearance order). -/
def dedupSeen (seen : List (List Char)) : List (List Char) → List (List Char)
  | [] => []
  | x :: xs => if x ∈ seen then dedupSeen seen xs else x :: dedupSeen (seen ++ [x]) xs

def dedupFirst (l : List (List Char)) : List (List Char) := dedupSeen [] l

/-- Python string `<`: lexicographic comparison by code point. -/
def lexLtL : List Char → List Char → Bool
  | [], [] => false
  | [], _ :: _ => true
  | _ :: _, [] => false
  | a :: as_, b :: bs =>
    if a.toNat < b.toNat then true
    else if b.toNat < a.toNat then false
    else lexLtL as_ bs

def insertLex (x : List Char) : List (List Char) → List (List Char)
  | [] => [x]
  | y :: ys => if lexLtL x y then x :: y :: ys else y :: insertLex x ys

/-- Python `sorted` on pairwise-distinct tokens (insertion sort; stability is moot
since set elements are distinct). -/
def sortLex : List (List Char) → List (List Char)
  | [] => []
  | x :: xs => insertLex x (sortLex xs)

def joinSpace (xs : List (List Char)) : List Char := List.intercalate [' '] xs

/-- Source `fuzz.token_set_ratio` (`_token_set`, `partial=False`,
`full_process=True`): max of the three pairwise ratios between the sorted
intersection and the two sorted combinations. -/
def tokenSetScore (s1 s2 : List Char) : Nat :=
  let p1 := fullProcess s1
  let p2 := fullProcess s2
  if p1.isEmpty || p2.isEmpty then 0
  else
    let t1 := dedupFirst (pySplitWS p1)
    let t2 := dedupFirst (pySplitWS p2)
    let sortedSect := joinSpace (sortLex (t1.filter (· ∈ t2)))
    let combined12 := pyStrip (sortedSect ++ [' '] ++ joinSpace (sortLex (t1.filter (· ∉ t2))))
    let combined21 := pyStrip (sortedSect ++ [' '] ++ joinSpace (sortLex (t2.filter (· ∉ t1))))
    let s0 := pyStrip sortedSect
    max (fuzzRatioScore s0 combined12)
      (max (fuzzRatioScore s0 combined21) (fuzzRatioScore combined12 combined21))

/-! ### Guideline reference tables (src/evals/recommended_tests.py) -/

structure TestDef where
  canonical : String
  contained_in : List String
deriving DecidableEq

structure LabCategory where
  category : String
  tests : List TestDef
deriving DecidableEq

structure ImgCategory where
  category : String
  options : List TestDef

def wbcDef : TestDef :=
  ⟨"white blood cell count (WBC)", ["complete blood count (CBC)", "cbc with differential"]⟩

def crpDef : TestDef := ⟨"c-reactive protein (CRP)", []⟩

def lfpAliases : List String :=
  ["comprehensive metabolic panel (CMP)", "liver function panel (LFP)",
   "liver enzymes", "liver function test (LFT)"]

/-- Source `GUIDELINE_LAB_TESTS` with the `.get(pathology, [])` default. -/
def GUIDELINE_LAB_TESTS (p : String) : List LabCategory :=
  if p = "appendicitis" then
    [⟨"inflammation", [wbcDef, crpDef]⟩]
  else if p = "cholecystitis" then
    [⟨"inflammation", [wbcDef, crpDef]⟩,
     ⟨"cbds_risk",
      [⟨"alanine transaminase (ALT)", lfpAliases⟩,
       ⟨"aspartate transaminase (AST)", lfpAliases⟩,
       ⟨"alkaline phosphatase (ALP)", lfpAliases⟩,
       ⟨"gamma glutamyltransferase (GGT)",
        ["liver function panel (LFP)", "liver enzymes", "liver function test (LFT)"]⟩,
       ⟨"bilirubin",
        ["comprehensive metabolic panel (CMP)", "liver function panel (LFP)",
         "liver function test (LFT)"]⟩]⟩]
  else if p = "diverticulitis" then
    [⟨"inflammation", [wbcDef, crpDef]⟩]
  else if p = "pancreatitis" then
    [⟨"serum_enzymes", [⟨"lipase", ["serum lipase"]⟩, ⟨"amylase", ["serum amylase"]⟩]⟩,
     ⟨"other_markers",
      [crpDef,
       ⟨"hematocrit", ["complete blood count (CBC)"]⟩,
       ⟨"blood urea nitrogen (BUN)",
        ["basic metabolic panel (BMP)", "comprehensive metabolic panel (CMP)"]⟩,
       ⟨"procalcitonin", []⟩,
       ⟨"serum triglycerides", []⟩,
       ⟨"calcium",
        ["basic metabolic panel (BMP)", "comprehensive metabolic panel (CMP)"]⟩]⟩]
  else []

def usOption : TestDef :=
  ⟨"abdominal ultrasound (US)",
   ["ultrasound abdomen", "ultrasound (abdomen)", "abdominal ultrasound"]⟩

def ctAbdPelvisOption : TestDef :=
  ⟨"ct scan of the abdomen and pelvis",
   ["ct abdomen", "ct pelvis", "ct abdomen/pelvis", "abdominal ct", "pelvic ct"]⟩

def mriAbdOption : TestDef := ⟨"mri (abdomen)", ["mri abdomen", "abdominal mri"]⟩

def ctAbdOption : TestDef := ⟨"ct scan (abdomen)", ["ct abdomen", "abdominal ct"]⟩

/-- Source `GUIDELINE_IMAGING_TESTS` with the `.get(pathology, [])` default. -/
def GUIDELINE_IMAGING_TESTS (p : String) : List ImgCategory :=
  if p = "appendicitis" then
    [⟨"initial_imaging", [usOption]⟩,
     ⟨"if_inconclusive", [ctAbdPelvisOption]⟩,
     ⟨"if_ct_contraindicated", [mriAbdOption]⟩]
  else if p = "cholecystitis" then
    [⟨"initial_imaging", [usOption]⟩,
     ⟨"if_inconclusive",
      [⟨"hida scan (cholescintigraphy)",
        ["hida scan", "hepatobiliary iminodiacetic acid scan", "cholescintigraphy"]⟩,
       mriAbdOption]⟩,
     ⟨"less_frequent", [ctAbdOption]⟩]
  else if p = "diverticulitis" then
    [⟨"initial_imaging", [ctAbdPelvisOption]⟩,
     ⟨"if_unavailable_or_contraindicated",
      [usOption,
       ⟨"mri (abdomen/pelvis)",
        ["mri abdomen", "mri pelvis", "mri abdomen/pelvis", "abdominal mri", "pelvic mri"]⟩]⟩]
  else if p = "pancreatitis" then
    [⟨"initial_imaging", [usOption]⟩,
     ⟨"if_doubt_exists", [ctAbdOption]⟩,
     ⟨"if_severe",
      [⟨"contrast-enhanced ct (ce-ct)",
        ["contrast ct abdomen", "ce-ct abdomen", "enhanced ct scan", "ct scan with contrast"]⟩,
       mriAbdOption]⟩,
     ⟨"screen_for_cbds",
      [⟨"magnetic resonance cholangiopancreatography (mrcp)",
        ["mrcp", "magnetic resonance cholangiopancreatography"]⟩,
       ⟨"endoscopic ultrasound (eus)", ["eus", "endoscopic ultrasonography"]⟩]⟩]
  else []

/-- An ASCII apostrophe, spelled out as a code point. -/
def apos : String := String.mk [Char.ofNat 39]

/-- Source `PHYSICAL_EXAM_MANEUVER_SYNONYMS` with the `.get(pathology, [])` default. -/
def PHYSICAL_EXAM_MANEUVER_SYNONYMS (p : String) : List String :=
  if p = "appendicitis" then
    ["mcburney", "mcburney" ++ apos ++ "s", "mcburney point",
     "mcburney" ++ apos ++ "s point", "point of mcburney", "mcburney tenderness",
     "right iliac tenderness", "tenderness at mcburney",
     "tenderness at mcburney" ++ apos ++ "s point"]
  else if p = "cholecystitis" then
    ["murphy", "murphy" ++ apos ++ "s", "murphy sign", "murphy" ++ apos ++ "s sign",
     "inspiratory arrest", "halted inspiration", "interruption of breath",
     "breath catching", "respiratory arrest with palpation"]
  else if p = "diverticulitis" then
    ["left lower quadrant", "llq", "sigmoid", "sigmoid tenderness",
     "tenderness over sigmoid", "left iliac fossa", "lif",
     "left-sided abdominal tenderness", "sigmoid colon tenderness"]
  else if p = "pancreatitis" then
    ["epigastric", "epigastrium", "upper abdominal", "mid-upper abdomen",
     "central upper abdomen", "transabdominal tenderness", "midline upper abdomen",
     "central abdominal tenderness", "mid-epigastric"]
  else []

/-! ### InformationRequestEvaluator (src/evals/information_evaluator.py) -/

/-- Source `exact_or_fuzzy_match(user_str, ref_str, threshold)`. -/
def exact_or_fuzzy_match (user_str ref_str : String) (threshold : Nat) : Bool :=
  let u := pyStrip (pyLowerL user_str.data)
  let r := pyStrip (pyLowerL ref_str.data)
  threshold ≤ max (tokenSetScore u r) (fuzzPartial u r)

/-- Source `correct_maneuver_requested(requested_maneuvers, pathology, threshold)`. -/
def correct_maneuver_requested (requested_maneuvers : List String) (pathology : String)
    (threshold : Nat) : Bool :=
  let synonyms := PHYSICAL_EXAM_MANEUVER_SYNONYMS pathology
  ((requested_maneuvers.map (fun m => pyStrip (pyLowerL m.data))).any (fun maneuver =>
    synonyms.any (fun synonym =>
      threshold ≤ fuzzPartial maneuver (pyLowerL synonym.data))))

structure InfoState where
  fuzzy_threshold : Nat
  total_patients : Nat
  total_physical_exams : Nat
  num_patients_with_requested_labs : Nat
  num_patients_with_requested_imaging : Nat
  total_possible_to_cover : Nat
  total_model_covered : Nat
  coverage_scores : List ℚ
  total_maneuvers : Nat
  total_labs : Nat
  total_imaging : Nat

/-- Source `InformationRequestEvaluator.__init__` (default `fuzzy_threshold=90`). -/
def infoInit (threshold : Nat) : InfoState := ⟨threshold, 0, 0, 0, 0, 0, 0, [], 0, 0, 0⟩

/-- The per-test `found` disjunction inside the lab loop. -/
def labTestFound (threshold : Nat) (requested_labs : List String) (td : TestDef) : Bool :=
  let canonical := pyLower td.canonical
  let synonyms := canonical :: td.contained_in.map pyLower
  requested_labs.any (fun req_lab =>
    synonyms.any (fun syn => exact_or_fuzzy_match req_lab syn threshold))

/-- A lab category is covered when any of its tests is found (the inner loop
breaks at the first hit). -/
def categoryCovered (threshold : Nat) (requested_labs : List String)
    (cat : LabCategory) : Bool :=
  cat.tests.any (labTestFound threshold requested_labs)

def coveredLabCategories (threshold : Nat) (requested_labs : List String)
    (cats : List LabCategory) : Nat :=
  (cats.filter (categoryCovered threshold requested_labs)).length

/-- Imaging coverage over the flattened option list of every category. -/
def imagingCovered (threshold : Nat) (requested_imaging : List String)
    (cats : List ImgCategory) : Bool :=
  (cats.flatMap (·.options)).any (fun opt =>
    let canonical := pyLower opt.canonical
    let synonyms := canonical :: opt.contained_in.map pyLower
    requested_imaging.any (fun req_img =>
      synonyms.any (fun syn => exact_or_fuzzy_match req_img syn threshold)))

/-- Source `InformationRequestEvaluator.update`. -/
def infoUpdate (s : InfoState) (pathology : String)
    (requested_labs requested_imaging requested_maneuvers : List String)
    (physical_exam_count : Nat) : InfoState :=
  let recommended_labs := GUIDELINE_LAB_TESTS pathology
  let total_lab_categories := recommended_labs.length
  let covered_lab_categories :=
    coveredLabCategories s.fuzzy_threshold requested_labs recommended_labs
  let imaging_score : Nat :=
    if imagingCovered s.fuzzy_threshold requested_imaging (GUIDELINE_IMAGING_TESTS pathology)
    then 1 else 0
  let maneuver_score : Nat :=
    if correct_maneuver_requested requested_maneuvers pathology s.fuzzy_threshold
    then 1 else 0
  let total_possible := total_lab_categories + 1 + 1
  let covered_points := covered_lab_categories + imaging_score + maneuver_score
  let coverage : ℚ :=
    if total_possible = 0 then 0 else (covered_points : ℚ) / (total_possible : ℚ)
  { s with
    total_patients := s.total_patients + 1
    total_physical_exams := s.total_physical_exams + physical_exam_count
    total_maneuvers := s.total_maneuvers + requested_maneuvers.length
    total_labs := s.total_labs + requested_labs.length
    total_imaging := s.total_imaging + requested_imaging.length
    num_patients_with_requested_labs :=
      s.num_patients_with_requested_labs + (if requested_labs.isEmpty then 0 else 1)
    num_patients_with_requested_imaging :=
      s.num_patients_with_requested_imaging + (if requested_imaging.isEmpty then 0 else 1)
    total_possible_to_cover := s.total_possible_to_cover + total_possible
    total_model_covered := s.total_model_covered + covered_points
    coverage_scores := s.coverage_scores ++ [coverage] }

structure InfoMetrics where
  total_patients : Nat
  total_tool_calls : Nat
  avg_tools_per_case : ℚ
  avg_labs_per_case : ℚ
  avg_imaging_per_case : ℚ
  avg_maneuvers_per_case : ℚ
  frac_patients_labs : ℚ
  frac_patients_imaging : ℚ
  coverage_avg_per_patient : ℚ
  coverage_overall : ℚ
  coverage_to_test : ℚ

/-- Source `InformationRequestEvaluator.compute_metrics` (every Python
`x / y if cond else 0.0` guard kept; `if efficiency_average` is float
truthiness, i.e. a zero test). -/
def infoComputeMetrics (s : InfoState) : InfoMetrics :=
  let total_tools := s.total_labs + s.total_imaging + s.total_physical_exams
  let efficiency_average : ℚ :=
    if s.total_patients = 0 then 0 else (total_tools : ℚ) / (s.total_patients : ℚ)
  let avg_labs : ℚ :=
    if s.total_patients = 0 then 0 else (s.total_labs : ℚ) / (s.total_patients : ℚ)
  let avg_imaging : ℚ :=
    if s.total_patients = 0 then 0 else (s.total_imaging : ℚ) / (s.total_patients : ℚ)
  let avg_maneuvers : ℚ :=
    if s.total_patients = 0 then 0 else (s.total_maneuvers : ℚ) / (s.total_patients : ℚ)
  let frac_labs : ℚ :=
    if s.total_patients = 0 then 0
    else (s.num_patients_with_requested_labs : ℚ) / (s.total_patients : ℚ)
  let frac_imaging : ℚ :=
    if s.total_patients = 0 then 0
    else (s.num_patients_with_requested_imaging : ℚ) / (s.total_patients : ℚ)
  let avg_coverage : ℚ :=
    if s.coverage_scores.isEmpty then 0
    else s.coverage_scores.sum / (s.coverage_scores.length : ℚ)
  let overall_coverage : ℚ :=
    if s.total_possible_to_cover = 0 then 0
    else (s.total_model_covered : ℚ) / (s.total_possible_to_cover : ℚ)
  let cov_to_test : ℚ :=
    if efficiency_average = 0 then 0 else avg_coverage / efficiency_average
  ⟨s.total_patients, total_tools, efficiency_average, avg_labs, avg_imaging,
   avg_maneuvers, frac_labs, frac_imaging, avg_coverage, overall_coverage, cov_to_test⟩

/-! ### LabCostEvaluator (src/evals/lab_cost_evaluator.py)

The CLFS fee schedule is an external CSV consumed at construction; the lookup
tables built from it (and the n-gram/fuzzy `match_test` over them) are
abstracted as a rate oracle `String → Option ℚ`, `none` standing for an
unmatched test whose entry carries `rate: None`. -/

structure LabCost where
  rateOf : String → Option ℚ
  total_cost : ℚ
  num_patients : Nat

def labCostInit (rateOf : String → Option ℚ) : LabCost := ⟨rateOf, 0, 0⟩

/-- Source `LabCostEvaluator.update(tests)`: the per-patient cost sums
`match.get("rate", 0.0) or 0.0` over the list; returns the new state and the
returned cost. -/
def labCostUpdate (s : LabCost) (tests : List String) : LabCost × ℚ :=
  let cost : ℚ := (tests.map (fun t => (s.rateOf t).getD 0)).sum
  (⟨s.rateOf, s.total_cost + cost, s.num_patients + 1⟩, cost)

/-- Source `LabCostEvaluator.compute_metrics`: `(total_cost, avg_cost_per_patient)`
with the zero-patient guard. -/
def labCostMetrics (s : LabCost) : ℚ × ℚ :=
  (s.total_cost,
   if s.num_patients = 0 then 0 else s.total_cost / (s.num_patients : ℚ))

/-! ### normalize_interpretation (src/evals/lab_interpretation_evaluator.py) -/

/-- Source `normalize_interpretation(it)`: `none` models a non-string input
(`not isinstance(it, str)`). -/
def normalize_interpretation : Option String → String
  | none => "unknown"
  | some it =>
    let s := String.mk (pyLowerL (pyStrip it.data))
    if s ∈ ["high", "elevated", "slightly elevated", "increased", "borderline high"] then
      "high"
    else if s ∈ ["low", "decreased", "reduced", "slightly low", "borderline low"] then
      "low"
    else if s ∈ ["normal", "within normal limits", "wnl"] then "normal"
    else if s ∈ ["unknown", "n/a", "not available", "none", ""] then "unknown"
    else s

/-! ### Treatment evaluators (src/evals/treatment_evaluator.py)

The keyword tables live in `treatment_mappings.py`, which is not part of the
sources at hand, and the checkers run through the NLP oracle; both are taken
as parameters.  An integer entry of a procedure-keyword table is compared by
`in` against the list `[treatment]` of strings and can never match. -/

inductive ProcKey where
  | code (n : Int)
  | kw (s : String)

/-- Source `procedure_checker(valid_procedures, done_procedures)`. -/
def procedure_checker (nlp : NlpOracle) (valid_procedures : List ProcKey)
    (done_procedures : List String) : Bool :=
  valid_procedures.any (fun v =>
    match v with
    | .code _ => false
    | .kw k => done_procedures.any (fun d => keyword_positive nlp d k))

/-- Python `text.split(".")` (empty pieces kept). -/
def splitDotAux (cur : List Char) : List Char → List (List Char)
  | [] => [cur]
  | c :: rest =>
    if c = '.' then cur :: splitDotAux [] rest else splitDotAux (cur ++ [c]) rest

def splitOnDot (l : List Char) : List (List Char) := splitDotAux [] l

/-- Source `treatment_alternative_procedure_checker(operation_keywords, text)`. -/
def treatment_alternative_procedure_checker (nlp : NlpOracle)
    (operation_keywords : List AltName) (text : String) : Bool :=
  operation_keywords.any (fun alt =>
    alt.modifiers.any (fun op_mod =>
      (splitOnDot text.data).any (fun sentence =>
        keyword_positive nlp (String.mk sentence) alt.location &&
          keyword_positive nlp (String.mk sentence) op_mod)))

/-- The shared SUPPORT test (`fluid` / `analgesi` / `pain`). -/
def supportHit (nlp : NlpOracle) (treatment : String) : Bool :=
  keyword_positive nlp treatment "fluid" || keyword_positive nlp treatment "analgesi" ||
    keyword_positive nlp treatment "pain"

structure ApState where
  correct_appendicitis_count : Nat
  appendectomy_count : Nat
  antibiotics_count : Nat
  support_count : Nat
  req_appendectomy : Bool
  req_antibiotics : Bool
  req_support : Bool
  required_appendectomy : Bool

/-- Source `AppendicitisEvaluator.__init__` (the constant-`True` required flags for
antibiotics/support are omitted; `required_appendectomy` is the one mutated
field of the `Treatment Required` map). -/
def apInit : ApState := ⟨0, 0, 0, 0, false, false, false, false⟩

/-- Source `AppendicitisEvaluator.score_treatment`. -/
def apScore (nlp : NlpOracle) (appendectomyKw : List ProcKey)
    (altAppendectomy : List AltName) (s : ApState) (treatment : String) : ApState :=
  let req_appendectomy := s.req_appendectomy ||
    (procedure_checker nlp appendectomyKw [treatment] ||
      treatment_alternative_procedure_checker nlp altAppendectomy treatment)
  let req_antibiotics := s.req_antibiotics || keyword_positive nlp treatment "antibiotic"
  let req_support := s.req_support || supportHit nlp treatment
  ⟨s.correct_appendicitis_count + 1,
   s.appendectomy_count + (if req_appendectomy then 1 else 0),
   s.antibiotics_count + (if req_antibiotics then 1 else 0),
   s.support_count + (if req_support then 1 else 0),
   req_appendectomy, req_antibiotics, req_support, true⟩

def apRun (nlp : NlpOracle) (appendectomyKw : List ProcKey)
    (altAppendectomy : List AltName) : ApState → List String → ApState
  | s, [] => s
  | s, t :: ts => apRun nlp appendectomyKw altAppendectomy
      (apScore nlp appendectomyKw altAppendectomy s t) ts

structure ChState where
  correct_cholecystitis_count : Nat
  cholecystectomy_count : Nat
  antibiotics_count : Nat
  support_count : Nat
  req_cholecystectomy : Bool
  req_antibiotics : Bool
  req_support : Bool
  required_cholecystectomy : Bool

def chInit : ChState := ⟨0, 0, 0, 0, false, false, false, false⟩

/-- Source `CholecystitisEvaluator.score_treatment`. -/
def chScore (nlp : NlpOracle) (cholecystectomyKw : List ProcKey)
    (altCholecystectomy : List AltName) (s : ChState) (treatment : String) : ChState :=
  let req_cholecystectomy := s.req_cholecystectomy ||
    (procedure_checker nlp cholecystectomyKw [treatment] ||
      treatment_alternative_procedure_checker nlp altCholecystectomy treatment)
  let req_antibiotics := s.req_antibiotics || keyword_positive nlp treatment "antibiotic"
  let req_support := s.req_support || supportHit nlp treatment
  ⟨s.correct_cholecystitis_count + 1,
   s.cholecystectomy_count + (if req_cholecystectomy then 1 else 0),
   s.antibiotics_count + (if req_antibiotics then 1 else 0),
   s.support_count + (if req_support then 1 else 0),
   req_cholecystectomy, req_antibiotics, req_support, true⟩

def chRun (nlp : NlpOracle) (cholecystectomyKw : List ProcKey)
    (altCholecystectomy : List AltName) : ChState → List String → ChState
  | s, [] => s
  | s, t :: ts => chRun nlp cholecystectomyKw altCholecystectomy
      (chScore nlp cholecystectomyKw altCholecystectomy s t) ts

structure DivState where
  correct_diverticulitis_count : Nat
  colonoscopy_count : Nat
  antibiotics_count : Nat
  support_count : Nat
  drainage_count : Nat
  colectomy_count : Nat
  req_colonoscopy : Bool
  req_antibiotics : Bool
  req_support : Bool
  req_drainage : Bool
  req_colectomy : Bool

def divInit : DivState := ⟨0, 0, 0, 0, 0, 0, false, false, false, false, false⟩

/-- Source `DiverticulitisEvaluator.score_treatment`.  The COLONOSCOPY and COLECTOMY
branches of the source test the same two colectomy tables; both conditions are
spelled out separately here exactly as in the source. -/
def divScore (nlp : NlpOracle) (colectomyKw : List ProcKey) (altColectomy : List AltName)
    (drainageKw : List ProcKey) (altDrainage : List AltName)
    (s : DivState) (treatment : String) : DivState :=
  let req_colonoscopy := s.req_colonoscopy ||
    (procedure_checker nlp colectomyKw [treatment] ||
      treatment_alternative_procedure_checker nlp altColectomy treatment)
  let req_antibiotics := s.req_antibiotics || keyword_positive nlp treatment "antibiotic"
  let req_support := s.req_support || supportHit nlp treatment
  let req_drainage := s.req_drainage ||
    (procedure_checker nlp drainageKw [treatment] ||
      treatment_alternative_procedure_checker nlp altDrainage treatment)
  let req_colectomy := s.req_colectomy ||
    (procedure_checker nlp colectomyKw [treatment] ||
      treatment_alternative_procedure_checker nlp altColectomy treatment)
  ⟨s.correct_diverticulitis_count + 1,
   s.colonoscopy_count + (if req_colonoscopy then 1 else 0),
   s.antibiotics_count + (if req_antibiotics then 1 else 0),
   s.support_count + (if req_support then 1 else 0),
   s.drainage_count + (if req_drainage then 1 else 0),
   s.colectomy_count + (if req_colectomy then 1 else 0),
   req_colonoscopy, req_antibiotics, req_support, req_drainage, req_colectomy⟩

def divRun (nlp : NlpOracle) (colectomyKw : List ProcKey) (altColectomy : List AltName)
    (drainageKw : List ProcKey) (altDrainage : List AltName) :
    DivState → List String → DivState
  | s, [] => s
  | s, t :: ts => divRun nlp colectomyKw altColectomy drainageKw altDrainage
      (divScore nlp colectomyKw altColectomy drainageKw altDrainage s t) ts

end OptParadox

namespace OptParadox

/-! ### Additional definitions used by the claim statements -/

/-- The tier disjunction of `check_diagnosis_match` as the specification
phrases it: primary fuzzy-plus-negation tier, then the alternative-name
table, then (only when that fails, which is what short-circuit disjunction
computes) the gracious table. -/
def tierDisjunction (nlp : NlpOracle) (G D : String) : Bool :=
  let c := pyLower G
  let d := pyLower D
  let dClean := removePunctL d.data
  (decide (90 < fuzzPartial c.data dClean) && ! is_negated nlp d c) ||
    altTableHit nlp d dClean (ALTERNATIVE_PATHOLOGY_NAMES c) ||
    altTableHit nlp d dClean (GRACIOUS_ALTERNATIVE_PATHOLOGY_NAMES c)

/-- Modelled from the claim under test (C7), for comparison only: the same
entity scan with the threshold read as "at least 90" instead of the
source's strict `> 90`. -/
def isNegScanAtLeast (kwLower : List Char) : List Ent → Bool
  | [] => false
  | e :: rest =>
    if 90 ≤ fuzzPartial kwLower (pyLowerL e.text.data) then e.negex
    else isNegScanAtLeast kwLower rest

def is_negated_atLeast (nlp : NlpOracle) (text keyword : String) : Bool :=
  isNegScanAtLeast (pyLowerL keyword.data) (nlp text)

/-- A one-entity oracle whose entity is negated and sits at fuzzy partial
similarity exactly 90 to the keyword used against it. -/
def boundaryOracle : NlpOracle := fun _ => [⟨"abcdefghix", true⟩]

end OptParadox

namespace OptParadox

set_option maxRecDepth 8000

/-! ### Claim theorems -/

/-- C3: for every pathology name P in the fixed enumeration
["appendicitis", "pancreatitis", "cholecystitis", "diverticulitis"],
`match_pathology(P)` returns P itself: scanning the enumeration in declared
order, no earlier pathology reaches fuzzy partial-ratio similarity above 80
against P before P matches itself. -/
theorem claim_C3 : ∀ p ∈ PATHOLOGIES, match_pathology p = some p := by decide

theorem claim_C3_witness : match_pathology "appendicitis" = some "appendicitis" :=
  claim_C3 "appendicitis" (by decide)

/-- C4: every `InformationRequestEvaluator.update` call adds
(number of guideline lab categories for the pathology) + 1 + 1 to
`total_possible_to_cover` (so a pathology with no registered lab categories
contributes exactly 2), and appends covered points divided by that total to
`coverage_scores`; the divide-by-zero guard never fires because the total is
at least 2. -/
theorem claim_C4 (s : InfoState) (pathology : String)
    (labs imaging maneuvers : List String) (n : Nat) :
    (infoUpdate s pathology labs imaging maneuvers n).total_possible_to_cover =
      s.total_possible_to_cover + ((GUIDELINE_LAB_TESTS pathology).length + 2) ∧
    (infoUpdate s pathology labs imaging maneuvers n).coverage_scores =
      s.coverage_scores ++
        [((coveredLabCategories s.fuzzy_threshold labs (GUIDELINE_LAB_TESTS pathology) +
            (if imagingCovered s.fuzzy_threshold imaging (GUIDELINE_IMAGING_TESTS pathology)
              then 1 else 0) +
            (if correct_maneuver_requested maneuvers pathology s.fuzzy_threshold
              then 1 else 0) : Nat) : ℚ) /
          (((GUIDELINE_LAB_TESTS pathology).length : ℚ) + 2)] ∧
    (GUIDELINE_LAB_TESTS pathology = [] →
      (infoUpdate s pathology labs imaging maneuvers n).total_possible_to_cover =
        s.total_possible_to_cover + 2) := by
  refine ⟨?_, ?_, ?_⟩
  · simp [infoUpdate, Nat.add_assoc]
  · simp only [infoUpdate]
    have hne : (GUIDELINE_LAB_TESTS pathology).length + 1 + 1 ≠ 0 := by omega
    simp [hne]
    ring_nf
  · intro h
    simp [infoUpdate, h]

theorem claim_C4_witness :
    (infoUpdate (infoInit 90) "unlisted" [] [] [] 0).total_possible_to_cover =
      (infoInit 90).total_possible_to_cover + 2 :=
  (claim_C4 (infoInit 90) "unlisted" [] [] [] 0).2.2 (by decide)

/-- C5: evaluator accumulators stay usable on an empty run:
`LabCostEvaluator.update([])` returns cost 0.0 from any state,
`compute_metrics()` before any update returns total 0.0 and average 0.0, and
`InformationRequestEvaluator.compute_metrics()` on the freshly constructed
state returns 0.0 for every ratio metric. -/
theorem claim_C5 :
    (∀ s : LabCost, (labCostUpdate s []).2 = 0) ∧
    (∀ rateOf : String → Option ℚ, labCostMetrics (labCostInit rateOf) = (0, 0)) ∧
    (∀ threshold : Nat,
      (infoComputeMetrics (infoInit threshold)).avg_tools_per_case = 0 ∧
      (infoComputeMetrics (infoInit threshold)).avg_labs_per_case = 0 ∧
      (infoComputeMetrics (infoInit threshold)).avg_imaging_per_case = 0 ∧
      (infoComputeMetrics (infoInit threshold)).avg_maneuvers_per_case = 0 ∧
      (infoComputeMetrics (infoInit threshold)).frac_patients_labs = 0 ∧
      (infoComputeMetrics (infoInit threshold)).frac_patients_imaging = 0 ∧
      (infoComputeMetrics (infoInit threshold)).coverage_avg_per_patient = 0 ∧
      (infoComputeMetrics (infoInit threshold)).coverage_overall = 0 ∧
      (infoComputeMetrics (infoInit threshold)).coverage_to_test = 0) := by
  refine ⟨fun s => ?_, fun rateOf => ?_, fun thr => ?_⟩
  · simp [labCostUpdate]
  · simp [labCostMetrics, labCostInit]
  · simp [infoComputeMetrics, infoInit]

/-- C6 (counterexample): contrary to the claim, "slightly high" is not in the
high-synonym list; `normalize_interpretation` returns it unchanged rather
than folding it to "high". -/
theorem claim_C6_counterexample :
    normalize_interpretation (some "slightly high") = "slightly high" ∧
    normalize_interpretation (some "slightly high") ≠ "high" := by decide

/-- C6 (amended): `normalize_interpretation` folds "elevated", "increased",
"slightly elevated" and "borderline high" to "high"; "wnl" and
"within normal limits" to "normal"; the empty string and "n/a" to "unknown";
a non-string input to "unknown"; and
`normalize_interpretation("Slightly Elevated") = normalize_interpretation("high")
= "high"`. -/
theorem claim_C6 :
    normalize_interpretation (some "elevated") = "high" ∧
    normalize_interpretation (some "increased") = "high" ∧
    normalize_interpretation (some "slightly elevated") = "high" ∧
    normalize_interpretation (some "borderline high") = "high" ∧
    normalize_interpretation (some "wnl") = "normal" ∧
    normalize_interpretation (some "within normal limits") = "normal" ∧
    normalize_interpretation (some "") = "unknown" ∧
    normalize_interpretation (some "n/a") = "unknown" ∧
    normalize_interpretation none = "unknown" ∧
    normalize_interpretation (some "Slightly Elevated") =
      normalize_interpretation (some "high") ∧
    normalize_interpretation (some "high") = "high" := by decide

/-- C7 (counterexample): an entity at fuzzy partial similarity exactly 90 to
the keyword is skipped by the source's strict `> 90` scan, so `is_negated`
returns `False` where the claim's "at least 90" reading would return the
entity's negation flag `True`. -/
theorem claim_C7_counterexample :
    fuzzPartial (pyLowerL ("abcdefghij").data) (pyLowerL ("abcdefghix").data) = 90 ∧
    is_negated boundaryOracle "t" "abcdefghij" = false ∧
    is_negated_atLeast boundaryOracle "t" "abcdefghij" = true := by decide

/-- C7 (amended): `is_negated(text, keyword)` scans the recognized entities in
order and returns the negation flag of the first entity whose fuzzy partial
similarity to the keyword is strictly greater than 90; when no entity so
matches it returns `False`.  (The `except Exception` branch of the source also
returns `False`; in this total embedding it coincides with the no-match
fall-through.) -/
theorem claim_C7 : ∀ (nlp : NlpOracle) (text keyword : String),
    is_negated nlp text keyword =
      (match (nlp text).find? (fun e =>
          90 < fuzzPartial (pyLowerL keyword.data) (pyLowerL e.text.data)) with
       | some e => e.negex
       | none => false) := by
  intro nlp text keyword
  unfold is_negated
  induction nlp text with
  | nil => simp [isNegScan]
  | cons e rest ih =>
    by_cases h : 90 < fuzzPartial (pyLowerL keyword.data) (pyLowerL e.text.data)
    · simp [isNegScan, h]
    · simp [isNegScan, h, ih]

/-- C10: in `DiverticulitisEvaluator.score_treatment` the Colonoscopy category
is decided by exactly the same colectomy-table test as the Colectomy category,
so after any call sequence from a fresh evaluator the colonoscopy and
colectomy counts coincide (and so do the two flags). -/
theorem claim_C10 (nlp : NlpOracle) (colectomyKw : List ProcKey)
    (altColectomy : List AltName) (drainageKw : List ProcKey)
    (altDrainage : List AltName) (ts : List String) :
    (divRun nlp colectomyKw altColectomy drainageKw altDrainage divInit ts).colonoscopy_count =
      (divRun nlp colectomyKw altColectomy drainageKw altDrainage divInit ts).colectomy_count := by
  have key : ∀ (ts : List String) (s : DivState),
      s.req_colonoscopy = s.req_colectomy → s.colonoscopy_count = s.colectomy_count →
      (divRun nlp colectomyKw altColectomy drainageKw altDrainage s ts).req_colonoscopy =
        (divRun nlp colectomyKw altColectomy drainageKw altDrainage s ts).req_colectomy ∧
      (divRun nlp colectomyKw altColectomy drainageKw altDrainage s ts).colonoscopy_count =
        (divRun nlp colectomyKw altColectomy drainageKw altDrainage s ts).colectomy_count := by
    intro ts
    induction ts with
    | nil => intro s h1 h2; exact ⟨h1, h2⟩
    | cons t ts ih =>
      intro s h1 h2
      simp only [divRun]
      exact ih (divScore nlp colectomyKw altColectomy drainageKw altDrainage s t)
        (by simp [divScore, h1]) (by simp [divScore, h1, h2])
  exact (key ts divInit rfl rfl).2

/-- Per-category monotonicity of `AppendicitisEvaluator`: once a
`Treatment Requested` flag is set, it stays set and its counter gains one per
further `score_treatment` call. -/
theorem apRun_mono (nlp : NlpOracle) (kw : List ProcKey) (alt : List AltName) :
    ∀ (ts : List String) (s : ApState),
      (s.req_appendectomy = true →
        (apRun nlp kw alt s ts).req_appendectomy = true ∧
        (apRun nlp kw alt s ts).appendectomy_count = s.appendectomy_count + ts.length) ∧
      (s.req_antibiotics = true →
        (apRun nlp kw alt s ts).req_antibiotics = true ∧
        (apRun nlp kw alt s ts).antibiotics_count = s.antibiotics_count + ts.length) ∧
      (s.req_support = true →
        (apRun nlp kw alt s ts).req_support = true ∧
        (apRun nlp kw alt s ts).support_count = s.support_count + ts.length) := by
  intro ts
  induction ts with
  | nil => intro s; simp [apRun]
  | cons t ts ih =>
    intro s
    simp only [apRun]
    refine ⟨fun h => ?_, fun h => ?_, fun h => ?_⟩
    · obtain ⟨hf, hc⟩ := (ih (apScore nlp kw alt s t)).1 (by simp [apScore, h])
      exact ⟨hf, by rw [hc]; simp [apScore, h]; omega⟩
    · obtain ⟨hf, hc⟩ := (ih (apScore nlp kw alt s t)).2.1 (by simp [apScore, h])
      exact ⟨hf, by rw [hc]; simp [apScore, h]; omega⟩
    · obtain ⟨hf, hc⟩ := (ih (apScore nlp kw alt s t)).2.2 (by simp [apScore, h])
      exact ⟨hf, by rw [hc]; simp [apScore, h]; omega⟩

/-- Per-category monotonicity of `CholecystitisEvaluator`. -/
theorem chRun_mono (nlp : NlpOracle) (kw : List ProcKey) (alt : List AltName) :
    ∀ (ts : List String) (s : ChState),
      (s.req_cholecystectomy = true →
        (chRun nlp kw alt s ts).req_cholecystectomy = true ∧
        (chRun nlp kw alt s ts).cholecystectomy_count = s.cholecystectomy_count + ts.length) ∧
      (s.req_antibiotics = true →
        (chRun nlp kw alt s ts).req_antibiotics = true ∧
        (chRun nlp kw alt s ts).antibiotics_count = s.antibiotics_count + ts.length) ∧
      (s.req_support = true →
        (chRun nlp kw alt s ts).req_support = true ∧
        (chRun nlp kw alt s ts).support_count = s.support_count + ts.length) := by
  intro ts
  induction ts with
  | nil => intro s; simp [chRun]
  | cons t ts ih =>
    intro s
    simp only [chRun]
    refine ⟨fun h => ?_, fun h => ?_, fun h => ?_⟩
    · obtain ⟨hf, hc⟩ := (ih (chScore nlp kw alt s t)).1 (by simp [chScore, h])
      exact ⟨hf, by rw [hc]; simp [chScore, h]; omega⟩
    · obtain ⟨hf, hc⟩ := (ih (chScore nlp kw alt s t)).2.1 (by simp [chScore, h])
      exact ⟨hf, by rw [hc]; simp [chScore, h]; omega⟩
    · obtain ⟨hf, hc⟩ := (ih (chScore nlp kw alt s t)).2.2 (by simp [chScore, h])
      exact ⟨hf, by rw [hc]; simp [chScore, h]; omega⟩

/-- Per-category monotonicity of `DiverticulitisEvaluator`. -/
theorem divRun_mono (nlp : NlpOracle) (ckw : List ProcKey) (calt : List AltName)
    (dkw : List ProcKey) (dalt : List AltName) :
    ∀ (ts : List String) (s : DivState),
      (s.req_colonoscopy = true →
        (divRun nlp ckw calt dkw dalt s ts).req_colonoscopy = true ∧
        (divRun nlp ckw calt dkw dalt s ts).colonoscopy_count = s.colonoscopy_count + ts.length) ∧
      (s.req_antibiotics = true →
        (divRun nlp ckw calt dkw dalt s ts).req_antibiotics = true ∧
        (divRun nlp ckw calt dkw dalt s ts).antibiotics_count = s.antibiotics_count + ts.length) ∧
      (s.req_support = true →
        (divRun nlp ckw calt dkw dalt s ts).req_support = true ∧
        (divRun nlp ckw calt dkw dalt s ts).support_count = s.support_count + ts.length) ∧
      (s.req_drainage = true →
        (divRun nlp ckw calt dkw dalt s ts).req_drainage = true ∧
        (divRun nlp ckw calt dkw dalt s ts).drainage_count = s.drainage_count + ts.length) ∧
      (s.req_colectomy = true →
        (divRun nlp ckw calt dkw dalt s ts).req_colectomy = true ∧
        (divRun nlp ckw calt dkw dalt s ts).colectomy_count = s.colectomy_count + ts.length) := by
  intro ts
  induction ts with
  | nil => intro s; simp [divRun]
  | cons t ts ih =>
    intro s
    simp only [divRun]
    refine ⟨fun h => ?_, fun h => ?_, fun h => ?_, fun h => ?_, fun h => ?_⟩
    · obtain ⟨hf, hc⟩ := (ih (divScore nlp ckw calt dkw dalt s t)).1 (by simp [divScore, h])
      exact ⟨hf, by rw [hc]; simp [divScore, h]; omega⟩
    · obtain ⟨hf, hc⟩ := (ih (divScore nlp ckw calt dkw dalt s t)).2.1 (by simp [divScore, h])
      exact ⟨hf, by rw [hc]; simp [divScore, h]; omega⟩
    · obtain ⟨hf, hc⟩ := (ih (divScore nlp ckw calt dkw dalt s t)).2.2.1 (by simp [divScore, h])
      exact ⟨hf, by rw [hc]; simp [divScore, h]; omega⟩
    · obtain ⟨hf, hc⟩ := (ih (divScore nlp ckw calt dkw dalt s t)).2.2.2.1 (by simp [divScore, h])
      exact ⟨hf, by rw [hc]; simp [divScore, h]; omega⟩
    · obtain ⟨hf, hc⟩ := (ih (divScore nlp ckw calt dkw dalt s t)).2.2.2.2 (by simp [divScore, h])
      exact ⟨hf, by rw [hc]; simp [divScore, h]; omega⟩

/-- C9: in the appendicitis, cholecystitis and diverticulitis evaluators the
`Treatment Requested` flags are instance state that is never reset between
`score_treatment` calls, so each flag is monotone over the call sequence: once
some call sets a category's flag, every subsequent call increments that
category's counter, whatever its own text contains. -/
theorem claim_C9 :
    (∀ (nlp : NlpOracle) (kw : List ProcKey) (alt : List AltName)
        (s : ApState) (ts : List String),
      (s.req_appendectomy = true →
        (apRun nlp kw alt s ts).req_appendectomy = true ∧
        (apRun nlp kw alt s ts).appendectomy_count = s.appendectomy_count + ts.length) ∧
      (s.req_antibiotics = true →
        (apRun nlp kw alt s ts).req_antibiotics = true ∧
        (apRun nlp kw alt s ts).antibiotics_count = s.antibiotics_count + ts.length) ∧
      (s.req_support = true →
        (apRun nlp kw alt s ts).req_support = true ∧
        (apRun nlp kw alt s ts).support_count = s.support_count + ts.length)) ∧
    (∀ (nlp : NlpOracle) (kw : List ProcKey) (alt : List AltName)
        (s : ChState) (ts : List String),
      (s.req_cholecystectomy = true →
        (chRun nlp kw alt s ts).req_cholecystectomy = true ∧
        (chRun nlp kw alt s ts).cholecystectomy_count = s.cholecystectomy_count + ts.length) ∧
      (s.req_antibiotics = true →
        (chRun nlp kw alt s ts).req_antibiotics = true ∧
        (chRun nlp kw alt s ts).antibiotics_count = s.antibiotics_count + ts.length) ∧
      (s.req_support = true →
        (chRun nlp kw alt s ts).req_support = true ∧
        (chRun nlp kw alt s ts).support_count = s.support_count + ts.length)) ∧
    (∀ (nlp : NlpOracle) (ckw : List ProcKey) (calt : List AltName)
        (dkw : List ProcKey) (dalt : List AltName) (s : DivState) (ts : List String),
      (s.req_colonoscopy = true →
        (divRun nlp ckw calt dkw dalt s ts).req_colonoscopy = true ∧
        (divRun nlp ckw calt dkw dalt s ts).colonoscopy_count = s.colonoscopy_count + ts.length) ∧
      (s.req_antibiotics = true →
        (divRun nlp ckw calt dkw dalt s ts).req_antibiotics = true ∧
        (divRun nlp ckw calt dkw dalt s ts).antibiotics_count = s.antibiotics_count + ts.length) ∧
      (s.req_support = true →
        (divRun nlp ckw calt dkw dalt s ts).req_support = true ∧
        (divRun nlp ckw calt dkw dalt s ts).support_count = s.support_count + ts.length) ∧
      (s.req_drainage = true →
        (divRun nlp ckw calt dkw dalt s ts).req_drainage = true ∧
        (divRun nlp ckw calt dkw dalt s ts).drainage_count = s.drainage_count + ts.length) ∧
      (s.req_colectomy = true →
        (divRun nlp ckw calt dkw dalt s ts).req_colectomy = true ∧
        (divRun nlp ckw calt dkw dalt s ts).colectomy_count = s.colectomy_count + ts.length)) :=
  ⟨fun nlp kw alt s ts => apRun_mono nlp kw alt ts s,
   fun nlp kw alt s ts => chRun_mono nlp kw alt ts s,
   fun nlp ckw calt dkw dalt s ts => divRun_mono nlp ckw calt dkw dalt ts s⟩

/-- An oracle recognizing no entities, and evaluator states with every
requested flag already set, used to witness C9 on a text containing no
keyword at all. -/
def nlpNone : NlpOracle := fun _ => []

def apAllReq : ApState := ⟨0, 0, 0, 0, true, true, true, false⟩

def chAllReq : ChState := ⟨0, 0, 0, 0, true, true, true, false⟩

def divAllReq : DivState := ⟨0, 0, 0, 0, 0, 0, true, true, true, true, true⟩

theorem claim_C9_witness :
    ((apRun nlpNone [] [] apAllReq ["zzz"]).appendectomy_count = 1 ∧
      (apRun nlpNone [] [] apAllReq ["zzz"]).antibiotics_count = 1 ∧
      (apRun nlpNone [] [] apAllReq ["zzz"]).support_count = 1) ∧
    ((chRun nlpNone [] [] chAllReq ["zzz"]).cholecystectomy_count = 1 ∧
      (chRun nlpNone [] [] chAllReq ["zzz"]).antibiotics_count = 1 ∧
      (chRun nlpNone [] [] chAllReq ["zzz"]).support_count = 1) ∧
    ((divRun nlpNone [] [] [] [] divAllReq ["zzz"]).colonoscopy_count = 1 ∧
      (divRun nlpNone [] [] [] [] divAllReq ["zzz"]).antibiotics_count = 1 ∧
      (divRun nlpNone [] [] [] [] divAllReq ["zzz"]).support_count = 1 ∧
      (divRun nlpNone [] [] [] [] divAllReq ["zzz"]).drainage_count = 1 ∧
      (divRun nlpNone [] [] [] [] divAllReq ["zzz"]).colectomy_count = 1) :=
  ⟨⟨((claim_C9.1 nlpNone [] [] apAllReq ["zzz"]).1 rfl).2,
    ((claim_C9.1 nlpNone [] [] apAllReq ["zzz"]).2.1 rfl).2,
    ((claim_C9.1 nlpNone [] [] apAllReq ["zzz"]).2.2 rfl).2⟩,
   ⟨((claim_C9.2.1 nlpNone [] [] chAllReq ["zzz"]).1 rfl).2,
    ((claim_C9.2.1 nlpNone [] [] chAllReq ["zzz"]).2.1 rfl).2,
    ((claim_C9.2.1 nlpNone [] [] chAllReq ["zzz"]).2.2 rfl).2⟩,
   ⟨((claim_C9.2.2 nlpNone [] [] [] [] divAllReq ["zzz"]).1 rfl).2,
    ((claim_C9.2.2 nlpNone [] [] [] [] divAllReq ["zzz"]).2.1 rfl).2,
    ((claim_C9.2.2 nlpNone [] [] [] [] divAllReq ["zzz"]).2.2.1 rfl).2,
    ((claim_C9.2.2 nlpNone [] [] [] [] divAllReq ["zzz"]).2.2.2.1 rfl).2,
    ((claim_C9.2.2 nlpNone [] [] [] [] divAllReq ["zzz"]).2.2.2.2 rfl).2⟩⟩

/-- C1: for a gold pathology of the fixed enumeration and non-empty candidate
text, `check_diagnosis_match` computes the tier disjunction — primary fuzzy
match above 90 and not negated, else the alternative-name table, else the
gracious table — and in particular
`check_diagnosis_match("appendicitis", "acute gangrenous appendicitis")` is
true whenever the NLP pipeline does not judge the phrase negated. -/
theorem claim_C1 :
    (∀ (nlp : NlpOracle) (G D : String), G ∈ PATHOLOGIES → D ≠ "" →
      check_diagnosis_match nlp G D = tierDisjunction nlp G D) ∧
    (∀ nlp : NlpOracle,
      is_negated nlp "acute gangrenous appendicitis" "appendicitis" = false →
      check_diagnosis_match nlp "appendicitis" "acute gangrenous appendicitis" = true) := by
  constructor
  · intro nlp G D _ hD
    unfold check_diagnosis_match tierDisjunction
    rw [if_neg hD]
  · intro nlp h
    have h1 : pyLower "acute gangrenous appendicitis" = "acute gangrenous appendicitis" := by
      decide
    have h2 : pyLower "appendicitis" = "appendicitis" := by decide
    have hfp : fuzzPartial (String.data "appendicitis")
        (removePunctL (String.data "acute gangrenous appendicitis")) = 100 := by decide
    have hD : ¬(("acute gangrenous appendicitis" : String) = "") := by decide
    simp only [check_diagnosis_match, hD, if_false, ite_false, if_neg]
    rw [h1, h2, h, hfp]
    simp

theorem claim_C1_witness :
    check_diagnosis_match (fun _ => []) "appendicitis" "acute gangrenous appendicitis" =
      tierDisjunction (fun _ => []) "appendicitis" "acute gangrenous appendicitis" ∧
    check_diagnosis_match (fun _ => []) "appendicitis" "acute gangrenous appendicitis" = true :=
  ⟨claim_C1.1 (fun _ => []) "appendicitis" "acute gangrenous appendicitis"
      (by decide) (by decide),
   claim_C1.2 (fun _ => []) (by decide)⟩

/-- Beyond the end of the text the marker pattern cannot match. -/
theorem matchCI_false_of_ge (s : List Char) (p : Nat) (h : s.length ≤ p) :
    matchCI ("final diagnosis:").data s p = false := by
  unfold matchCI
  rw [List.drop_eq_nil_of_le h]
  decide

/-- With no marker occurrence anywhere, the findall scan collects nothing. -/
theorem findAllFDF_nil (s : List Char)
    (hmk : ∀ p, matchCI ("final diagnosis:").data s p = false) :
    ∀ fuel p, findAllFDF s fuel p = [] := by
  intro fuel
  induction fuel with
  | zero => intro p; rfl
  | succ n ih =>
    intro p
    have hfd : fdMatchAt s p = none := by
      unfold fdMatchAt
      rw [hmk p]
      rfl
    by_cases hp : s.length ≤ p
    · simp [findAllFDF, hp]
    · simp [findAllFDF, hp, hfd, ih]

/-- C8 (counterexample): in
`"Final Diagnosis: appendicitis\nFinal Diagnosis:1"` the marker occurs at
index 30 and nowhere later, yet `parse_diagnosis` returns "appendicitis",
which does not occur in the text from that last marker occurrence on — the
candidate came from the earlier occurrence, because the last marker is not
followed by any `[A-Za-z\s\-]` character and so never matches the pattern. -/
theorem claim_C8_counterexample :
    parse_diagnosis "Final Diagnosis: appendicitis\nFinal Diagnosis:1" = "appendicitis" ∧
    matchCI ("final diagnosis:").data
      ("Final Diagnosis: appendicitis\nFinal Diagnosis:1").data 30 = true ∧
    markerOccursCI (("Final Diagnosis: appendicitis\nFinal Diagnosis:1").data.drop 31) =
      false ∧
    isSubL ("appendicitis").data
      (("Final Diagnosis: appendicitis\nFinal Diagnosis:1").data.drop 30) = false := by
  decide

/-- C8 (amended): when no occurrence of the case-insensitive
`Final Diagnosis:` marker is present, `parse_diagnosis` returns the empty
string; otherwise it applies the fixed cleanup sequence to the capture of the
last regex match of `Final Diagnosis:\s*\**([A-Za-z\s\-]+)\**` — the last
occurrence whose marker is actually followed by a capturable character wins,
as the concrete two-marker input shows. -/
theorem claim_C8 :
    (∀ t : String, markerOccursCI t.data = false → parse_diagnosis t = "") ∧
    (∀ (t : String) (m : List Char), (findAllFD t.data).getLast? = some m →
      parse_diagnosis t = String.mk (cleanupCandidate m)) ∧
    parse_diagnosis "Final Diagnosis: pancreatitis.\nFinal Diagnosis: acute appendicitis" =
      "acute appendicitis" := by
  refine ⟨?_, ?_, by decide⟩
  · intro t h
    have hmk : ∀ p, matchCI ("final diagnosis:").data t.data p = false := by
      intro p
      by_cases hp : t.data.length ≤ p
      · exact matchCI_false_of_ge _ _ hp
      · have hmem : p ∈ List.range (t.data.length + 1) := by
          rw [List.mem_range]; omega
        simp only [markerOccursCI, List.any_eq_false] at h
        exact Bool.not_eq_true _ ▸ (by simpa using h p hmem)
    unfold parse_diagnosis
    rw [show findAllFD t.data = [] from findAllFDF_nil t.data hmk _ _]
    rfl
  · intro t m hm
    unfold parse_diagnosis
    rw [hm]

theorem claim_C8_witness :
    parse_diagnosis "hello" = "" ∧
    parse_diagnosis "Final Diagnosis: flu" = String.mk (cleanupCandidate ("flu").data) :=
  ⟨claim_C8.1 "hello" (by decide),
   claim_C8.2.1 "Final Diagnosis: flu" ("flu").data (by decide)⟩

/-- The collection loop keeps, in order, the first occurrences of the
non-empty items not yet collected, capped at five. -/
theorem collect5_eq :
    ∀ (items : List (List Char)) (acc : List (List Char)), acc.length < 5 →
      collect5 acc items =
        acc ++ (dedupSeen acc (items.filter (fun x => ! x.isEmpty))).take (5 - acc.length) := by
  intro items
  induction items with
  | nil => intro acc h; simp [collect5, dedupSeen]
  | cons x xs ih =>
    intro acc hlen
    have hne5 : acc.length ≠ 5 := by omega
    by_cases hx : x = []
    · subst hx
      simp only [collect5, List.filter_cons]
      simp [hne5, ih acc hlen]
    · have hfilter : (x :: xs).filter (fun y => ! y.isEmpty) =
          x :: xs.filter (fun y => ! y.isEmpty) := by
        simp [List.filter_cons, List.isEmpty_iff, hx]
      by_cases hmem : x ∈ acc
      · have hguard : ¬(x ≠ [] ∧ x ∉ acc) := by simp [hmem]
        simp only [collect5, hfilter]
        rw [if_neg hguard, if_neg hne5, dedupSeen, if_pos hmem, ih acc hlen]
      · have hguard : x ≠ [] ∧ x ∉ acc := ⟨hx, hmem⟩
        simp only [collect5]
        rw [if_pos hguard, hfilter, dedupSeen, if_neg hmem]
        by_cases hfive : (acc ++ [x]).length = 5
        · rw [if_pos hfive]
          have htake : 5 - acc.length = 1 := by simp at hfive; omega
          rw [htake]
          simp
        · have hlt : (acc ++ [x]).length < 5 := by simp at hfive ⊢; omega
          have htake : 5 - acc.length = (5 - (acc ++ [x]).length) + 1 := by
            simp at hfive hlt ⊢; omega
          rw [if_neg hfive, ih (acc ++ [x]) hlt, htake, List.take_succ_cons]
          simp

/-- The fallback loop is the shared collection loop over the cleaned lines up
to the first `treatment`/`thought` line. -/
theorem plainCollect_eq :
    ∀ (lines : List (List Char)) (acc : List (List Char)),
      plainCollect acc lines =
        collect5 acc ((lines.takeWhile (fun ln => ! startsTreatThought ln)).map plainLineClean) := by
  intro lines
  induction lines with
  | nil => intro acc; simp [plainCollect, collect5]
  | cons ln rest ih =>
    intro acc
    by_cases h : startsTreatThought ln
    · simp [plainCollect, h, List.takeWhile_cons, collect5]
    · rw [List.takeWhile_cons, if_pos (by simp [h]), List.map_cons]
      simp only [plainCollect, collect5, h, Bool.false_eq_true, if_false]
      by_cases hg : plainLineClean ln ≠ [] ∧ plainLineClean ln ∉ acc
      · rw [if_pos hg]
        by_cases h5 : (acc ++ [plainLineClean ln]).length = 5
        · rw [if_pos h5, if_pos h5]
        · rw [if_neg h5, if_neg h5, ih]
      · rw [if_neg hg]
        by_cases h5 : acc.length = 5
        · rw [if_pos h5, if_pos h5]
        · rw [if_neg h5, if_neg h5, ih]

/-- Lemma: `dedupSeen` yields pairwise-distinct results avoiding the seen set. -/
theorem dedupSeen_nodup :
    ∀ (l : List (List Char)) (seen : List (List Char)),
      (dedupSeen seen l).Nodup ∧ ∀ x ∈ dedupSeen seen l, x ∉ seen := by
  intro l
  induction l with
  | nil => intro seen; simp [dedupSeen]
  | cons x xs ih =>
    intro seen
    by_cases hx : x ∈ seen
    · simpa [dedupSeen, hx] using ih seen
    · have h2 := ih (seen ++ [x])
      refine ⟨?_, ?_⟩
      · rw [dedupSeen, if_neg hx]
        refine List.nodup_cons.mpr ⟨fun hmem => ?_, h2.1⟩
        exact (h2.2 x hmem) (by simp)
      · intro y hy
        rw [dedupSeen, if_neg hx] at hy
        rcases List.mem_cons.mp hy with h | h
        · subst h; exact hx
        · have hnotin := h2.2 y h
          intro hys
          exact hnotin (by simp [hys])

/-- Every element of a `dedupSeen` result comes from the input list. -/
theorem dedupSeen_sub :
    ∀ (l : List (List Char)) (seen : List (List Char)) (x : List Char),
      x ∈ dedupSeen seen l → x ∈ l := by
  intro l
  induction l with
  | nil => intro seen x h; simp [dedupSeen] at h
  | cons y ys ih =>
    intro seen x h
    by_cases hy : y ∈ seen
    · rw [dedupSeen, if_pos hy] at h
      exact List.mem_cons_of_mem _ (ih seen x h)
    · rw [dedupSeen, if_neg hy] at h
      rcases List.mem_cons.mp h with h | h
      · simp [h]
      · exact List.mem_cons_of_mem _ (ih (seen ++ [y]) x h)

/-- The two exits of `parseRankedCore`: the capped first-occurrence
deduplication of the ranked item stream, or of the fallback line stream (a
failed fallback search collecting the empty stream). -/
theorem parseRankedCore_cases (s : List Char) :
    parseRankedCore s =
      (dedupFirst ((rankedItems s).filter (fun x => ! x.isEmpty))).take 5 ∨
    parseRankedCore s =
      (dedupFirst ((plainItems s).filter (fun x => ! x.isEmpty))).take 5 := by
  have hfb : (match plainSearch s with
       | none => ([] : List (List Char))
       | some content => plainCollect [] (plainRawLines content)) =
        (dedupFirst ((plainItems s).filter (fun x => ! x.isEmpty))).take 5 := by
    cases hp : plainSearch s with
    | none => simp [plainItems, hp, dedupFirst, dedupSeen]
    | some content =>
      show plainCollect [] (plainRawLines content) =
        (dedupFirst ((plainItems s).filter (fun x => ! x.isEmpty))).take 5
      rw [plainCollect_eq, collect5_eq _ [] (by simp)]
      simp [plainItems, hp, dedupFirst]
  unfold parseRankedCore
  cases hr : rankedSearch s with
  | none => right; exact hfb
  | some content =>
    by_cases hn : (findAllNum content).isEmpty
    · right
      simp only [hn, if_pos]
      exact hfb
    · by_cases hds : (collect5 [] ((findAllNum content).map itemCleanRanked)).isEmpty
      · right
        simp only [hn, hds, Bool.false_eq_true, if_false, if_pos]
        exact hfb
      · left
        simp only [hn, hds, Bool.false_eq_true, if_false]
        rw [collect5_eq _ [] (by simp)]
        simp only [rankedItems, hr]
        simp [dedupFirst]

theorem stringMk_injective : Function.Injective String.mk := by
  intro a b h
  injection h

/-- C2: `parse_ranked_diagnoses` always returns at most five pairwise-distinct
lowercased punctuation-stripped strings — the first occurrences, in order, of
one of the two cleaned candidate streams, capped at five; when the ranked
block yields no numbered items and the plain block is absent it returns the
empty list without raising; and on the well-formed ranked input with items
"1. Appendicitis" and "2. Diverticulitis" terminated by a blank line it
returns exactly ["appendicitis", "diverticulitis"]. -/
theorem claim_C2 :
    (∀ t : String,
      (parse_ranked_diagnoses t).length ≤ 5 ∧
      (parse_ranked_diagnoses t).Nodup ∧
      (∀ d ∈ parse_ranked_diagnoses t, ∃ m : List Char,
        d = String.mk (removePunctL (pyLowerL m))) ∧
      (parseRankedCore t.data =
          (dedupFirst ((rankedItems t.data).filter (fun x => ! x.isEmpty))).take 5 ∨
        parseRankedCore t.data =
          (dedupFirst ((plainItems t.data).filter (fun x => ! x.isEmpty))).take 5)) ∧
    (∀ t : String,
      (∀ content, rankedSearch t.data = some content → findAllNum content = []) →
      plainSearch t.data = none → parse_ranked_diagnoses t = []) ∧
    parse_ranked_diagnoses
        "Final Diagnosis (ranked):\n1. Appendicitis\n2. Diverticulitis\n\nTreatment: ..." =
      ["appendicitis", "diverticulitis"] := by
  refine ⟨?_, ?_, by decide⟩
  · intro t
    have hcases := parseRankedCore_cases t.data
    have hstream : ∀ x ∈ parseRankedCore t.data,
        x ∈ rankedItems t.data ∨ x ∈ plainItems t.data := by
      intro x hx
      rcases hcases with hc | hc
      · left
        rw [hc] at hx
        exact List.mem_of_mem_filter (dedupSeen_sub _ [] x (List.mem_of_mem_take hx))
      · right
        rw [hc] at hx
        exact List.mem_of_mem_filter (dedupSeen_sub _ [] x (List.mem_of_mem_take hx))
    have hlen : (parseRankedCore t.data).length ≤ 5 := by
      rcases hcases with hc | hc <;> rw [hc] <;> exact List.length_take_le 5 _
    have hnd : (parseRankedCore t.data).Nodup := by
      rcases hcases with hc | hc <;> rw [hc] <;>
        exact ((dedupSeen_nodup _ []).1).sublist (List.take_sublist _ _)
    refine ⟨?_, ?_, ?_, hcases⟩
    · simpa [parse_ranked_diagnoses] using hlen
    · exact List.Nodup.map stringMk_injective hnd
    · intro d hd
      rcases List.mem_map.mp hd with ⟨x, hx, rfl⟩
      rcases hstream x hx with hin | hin
      · have hin2 : x ∈ (match rankedSearch t.data with
            | some content => (findAllNum content).map itemCleanRanked
            | none => ([] : List (List Char))) := by
          simpa [rankedItems] using hin
        cases hre : rankedSearch t.data with
        | none => rw [hre] at hin2; simp at hin2
        | some content =>
          rw [hre] at hin2
          rcases List.mem_map.mp hin2 with ⟨cap, _, rfl⟩
          exact ⟨_, rfl⟩
      · have hin2 : x ∈ (match plainSearch t.data with
            | some content =>
              ((plainRawLines content).takeWhile
                (fun ln => ! startsTreatThought ln)).map plainLineClean
            | none => ([] : List (List Char))) := by
          simpa [plainItems] using hin
        cases hpl : plainSearch t.data with
        | none => rw [hpl] at hin2; simp at hin2
        | some content =>
          rw [hpl] at hin2
          rcases List.mem_map.mp hin2 with ⟨ln, _, rfl⟩
          exact ⟨_, rfl⟩
  · intro t h1 h2
    unfold parse_ranked_diagnoses parseRankedCore
    cases hr : rankedSearch t.data with
    | none => simp [h2]
    | some content =>
      have hempty := h1 content hr
      simp [hempty, h2]

theorem claim_C2_witness :
    (parse_ranked_diagnoses "no marker").length ≤ 5 ∧
    parse_ranked_diagnoses "no marker" = [] :=
  ⟨(claim_C2.1 "no marker").1,
   claim_C2.2.1 "no marker"
     (fun content h => by
       rw [show rankedSearch (String.data "no marker") = none from by decide] at h
       exact Option.noConfusion h)
     (by decide)⟩


end OptParadox

namespace OptParadox

/-! ### Cross-checks of the embedded text machinery

Concrete evaluations of the embedded similarity scorers and regex matchers,
each agreeing with the reference behavior of difflib / `re` on the same
input. -/

set_option maxRecDepth 8000

theorem valCheck01 : fuzzPartialS "appendicitis" "acute gangrenous appendicitis" = 100 := by decide

theorem valCheck02 : fuzzPartialS "abcdefghij" "abcdefghix" = 90 := by decide

theorem valCheck03 : fuzzPartialS "pancreatitis" "appendicitis" = 64 := by decide

theorem valCheck04 : tokenSetScore ("wbc").data ("white blood cell count (wbc)").data = 100 := by decide

theorem valCheck05 : tokenSetScore ("liver enzymes").data ("liver function panel (lfp)").data = 56 := by decide

theorem valCheck06 : tokenSetScore ("ct abdomen/pelvis").data ("ct scan of the abdomen and pelvis").data = 100 := by decide

theorem valCheck07 : parse_ranked_diagnoses "**Final Diagnosis (ranked):**\n1. Acute appendicitis - likely\n2: Pancreatitis : severe\n3) Appendicitis, acute\n\nmore" = ["acute appendicitis", "pancreatitis", "appendicitis acute"] := by decide

theorem valCheck08 : parse_ranked_diagnoses "Final Diagnosis:\n- Appendicitis\n- 2. Diverticulitis: x\nTreatment next\n\n" = ["appendicitis", "diverticulitis"] := by decide

theorem valCheck09 : parse_ranked_diagnoses "Final Diagnosis: Appendicitis\nThoughts: hmm\n\nrest" = ["appendicitis", "thoughts"] := by decide

theorem valCheck10 : parse_ranked_diagnoses "Final Diagnosis (ranked):\nno numbers here\n\nFinal Diagnosis: Cholecystitis\n\nx" = ["cholecystitis"] := by decide

theorem valCheck11 : parse_ranked_diagnoses "Final Diagnosis (ranked):\n1. A\n2. A\n3. B\n4. C\n5. D\n6. E\n7. F\n\nx" = ["a", "b", "c", "d", "e"] := by decide

theorem valCheck12 : parse_ranked_diagnoses "Final  Diagnosis   :   Gastritis  \nTreatment: none" = [] := by decide

theorem valCheck13 : parse_diagnosis "Final Diagnosis: The diagnosis here is acute cholecystitis. More text" = "The diagnosis here is acute cholecystitis" := by decide

theorem valCheck14 : parse_diagnosis "Final Diagnosis: ** acute appendicitis **" = "acute appendicitis" := by decide

theorem valCheck15 : parse_diagnosis "Final Diagnosis: appendicitis and diverticulitis" = "appendicitis" := by decide

theorem valCheck16 : parse_diagnosis "Final Diagnosis: gastritis vs. appendicitis" = "gastritis" := by decide

theorem valCheck17 : parse_diagnosis "Final Diagnosis: Acute Appendicitis\n\nNotes: blah" = "Acute Appendicitis" := by decide

theorem valCheck18 : parse_diagnosis "Final Diagnosis: the patient has appendicitis today" = "appendicitis today" := by decide

theorem valCheck19 : parse_diagnosis "final diagnosis:   perforated appendicitis with abscess" = "perforated appendicitis with abscess" := by decide

theorem valCheck20 : parse_diagnosis "Final Diagnosis: 1" = "" := by decide

theorem valCheck21 : parse_diagnosis "Final Diagnosis: " = "" := by decide

theorem valCheck22 : normalize_interpretation (some "borderline low") = "low" := by decide

end OptParadox
